import Mathlib

/-!
# temperature_humidity_monitor: the dashboard front end (`src/frontend/main.js`)

A shallow embedding of the browser script and the properties of its
specification.

## Conventions of the embedding

* A JavaScript number is a `JSNum`: `NaN`, the two infinities, or a finite value
  given by its exact rational value.  Subtraction, division and multiplication
  round their exact result to the nearest binary64 value (`toDouble`), with
  overflow to an infinity; zero carries no sign.
* `Number`, `Number.prototype.toFixed`, `Number::toString`, `Math.round`,
  `Math.min`, `Math.max` and `Number.isFinite` follow ECMA-262.  A conversion that
  throws is an `Except.error` with the name of the error.
* The document is a record with one field per property the script writes
  (`textContent`, `className`, `value`, `style.width`).  The elements looked up
  at the top of the script are taken to exist.
* What a call reads from its environment is a `Moment`: the two strings
  `updateClock` formats from `new Date()`, and the room left on the stack of the
  engine, which bounds the nesting of the arrays `Number` can convert.
-/

namespace WeatherMonitor

/-! ## Numbers -/

/-- A JavaScript number. -/
inductive JSNum where
  | nan
  | posInf
  | negInf
  | fin (q : ℚ)
  deriving DecidableEq

namespace JSNum

/-- The test `Number.isFinite`. -/
def isFinite : JSNum → Bool
  | fin _ => true
  | _ => false

/-- The function `Math.max` on two arguments. -/
def max : JSNum → JSNum → JSNum
  | nan, _ => nan
  | _, nan => nan
  | posInf, _ => posInf
  | _, posInf => posInf
  | negInf, b => b
  | a, negInf => a
  | fin a, fin b => fin (if a ≤ b then b else a)

/-- The function `Math.min` on two arguments. -/
def min : JSNum → JSNum → JSNum
  | nan, _ => nan
  | _, nan => nan
  | negInf, _ => negInf
  | _, negInf => negInf
  | posInf, b => b
  | a, posInf => a
  | fin a, fin b => fin (if a ≤ b then a else b)

end JSNum

/-! ## Rounding to binary64 -/

/-- The binary logarithm on at most `fuel` halvings. -/
def natLog2Aux : ℕ → ℕ → ℕ
  | 0, _ => 0
  | fuel + 1, n => if n < 2 then 0 else natLog2Aux fuel (n / 2) + 1

/-- The `e` with `2^e ≤ n < 2^(e+1)`, for a positive `n`. -/
def natLog2 (n : ℕ) : ℕ := natLog2Aux n n

/-- The integer `e` with `2^e ≤ a < 2^(e+1)`, for a positive `a`. -/
def floorLog2 (a : ℚ) : ℤ :=
  let e0 : ℤ := (natLog2 a.num.toNat : ℤ) - (natLog2 a.den : ℤ)
  if a < (2 : ℚ) ^ e0 then e0 - 1 else e0

/-- The nearest integer, a tie going to the even one. -/
def roundHalfEven (a : ℚ) : ℤ :=
  let f := ⌊a⌋
  let r := a - f
  if r < 1 / 2 then f else if 1 / 2 < r then f + 1 else if f % 2 = 0 then f else f + 1

/-- The positive real `a` rounded to 53 significant bits, with the exponent of
the subnormal numbers as the least one, a tie going to the even significand. -/
def roundMag (a : ℚ) : ℚ :=
  let e := Max.max (floorLog2 a) (-1022)
  let ulp : ℚ := 2 ^ (e - 52)
  roundHalfEven (a / ulp) * ulp

/-- The Number value of a real: the nearest binary64 value, a tie going to the
even significand, and an infinity from `2^1024` on. -/
def toDouble (q : ℚ) : JSNum :=
  if q = 0 then JSNum.fin 0
  else if (2 : ℚ) ^ (1024 : ℕ) ≤ roundMag |q| then
    (if 0 < q then JSNum.posInf else JSNum.negInf)
  else JSNum.fin (if 0 < q then roundMag |q| else -roundMag |q|)

namespace JSNum

/-- The operator `a - b`. -/
def sub : JSNum → JSNum → JSNum
  | nan, _ => nan
  | _, nan => nan
  | posInf, posInf => nan
  | negInf, negInf => nan
  | posInf, _ => posInf
  | negInf, _ => negInf
  | fin _, posInf => negInf
  | fin _, negInf => posInf
  | fin a, fin b => toDouble (a - b)

/-- The infinity with the sign of the product of the signs of `a` and `b`. -/
def signedInf (a b : ℚ) : JSNum :=
  if decide (0 < a) = decide (0 < b) then posInf else negInf

/-- The operator `a / b`. -/
def div : JSNum → JSNum → JSNum
  | nan, _ => nan
  | _, nan => nan
  | fin a, fin b =>
    if b = 0 then (if a = 0 then nan else signedInf a 1) else toDouble (a / b)
  | fin _, _ => fin 0
  | posInf, fin b => signedInf 1 (if b = 0 then 1 else b)
  | negInf, fin b => signedInf (-1) (if b = 0 then 1 else b)
  | _, _ => nan

/-- The operator `a * b`. -/
def mul : JSNum → JSNum → JSNum
  | nan, _ => nan
  | _, nan => nan
  | fin a, fin b => toDouble (a * b)
  | fin a, posInf => if a = 0 then nan else signedInf a 1
  | fin a, negInf => if a = 0 then nan else signedInf a (-1)
  | posInf, fin b => if b = 0 then nan else signedInf 1 b
  | negInf, fin b => if b = 0 then nan else signedInf (-1) b
  | posInf, posInf => posInf
  | negInf, negInf => posInf
  | _, _ => negInf

/-- The function `Math.round`: the nearest integer, a tie going up. -/
def round : JSNum → JSNum
  | fin q => fin (⌊q + 1 / 2⌋ : ℤ)
  | x => x

end JSNum

/-! ## Decimal rendering of numbers -/

/-- The decimal digits of a natural number, the most significant first. -/
def decDigits (n : ℕ) : List Char := Nat.toDigits 10 n

/-- The integer `n` with `10^(n-1) ≤ a < 10^n`, for a positive `a`. -/
def decExp (a : ℚ) : ℤ :=
  if 1 ≤ a then ((decDigits ⌊a⌋.toNat).length : ℤ)
  else 1 - ((decDigits (⌈a⁻¹⌉.toNat - 1)).length : ℤ)

/-- The value `s × 10^(n-k)` of a digit string `s` of `k` digits with decimal
exponent `n`. -/
def digitsValue (k : ℕ) (c : ℕ × ℤ) : ℚ := (c.1 : ℚ) * 10 ^ (c.2 - (k : ℤ))

/-- The two decimals of `k` digits around `x`, where `10^(n-1) ≤ x < 10^n`. -/
def candidates (x : ℚ) (n : ℤ) (k : ℕ) : List (ℕ × ℤ) :=
  let lo := ⌊x / 10 ^ (n - (k : ℤ))⌋.toNat
  [(lo, n), if lo + 1 = 10 ^ k then (10 ^ (k - 1), n + 1) else (lo + 1, n)]

/-- The one of two decimals that is closer to `x`, and the one with the even
digit string when they are equally close. -/
def closer (x : ℚ) (k : ℕ) (c d : ℕ × ℤ) : ℕ × ℤ :=
  if |digitsValue k c - x| < |digitsValue k d - x| then c
  else if |digitsValue k d - x| < |digitsValue k c - x| then d
  else if c.1 % 2 = 0 then c else d

/-- A decimal of `k` digits whose Number value is `x`, the closest to `x` when
there are two. -/
def pickDigits (x : ℚ) (n : ℤ) (k : ℕ) : Option (ℕ × ℤ) :=
  match (candidates x n k).filter (fun c => toDouble (digitsValue k c) = JSNum.fin x) with
  | [] => none
  | [c] => some c
  | c :: d :: _ => some (closer x k c d)

/-- The digits `s`, the exponent `n` and the digit count `k` of `Number::toString`:
`k` is the least count, from `k` on, for which a decimal of `k` digits has the
Number value `x`.  Seventeen digits suffice for every binary64 value; the
decimal of `k + fuel` digits closest to `x` is the result when none is found. -/
def shortestDigits (x : ℚ) (n : ℤ) : ℕ → ℕ → ℕ × ℤ × ℕ
  | 0, k =>
    match candidates x n k with
    | [c, d] => ((closer x k c d).1, (closer x k c d).2, k)
    | _ => (0, n, k)
  | fuel + 1, k =>
    match pickDigits x n k with
    | some c => (c.1, c.2, k)
    | none => shortestDigits x n fuel (k + 1)

/-- The string of `Number::toString` from the digits `ds` and the exponent `n`
(steps 6 to 10 of the algorithm, radix ten). -/
def formatDigits (ds : List Char) (n : ℤ) : List Char :=
  let k : ℤ := ds.length
  if k ≤ n ∧ n ≤ 21 then ds ++ List.replicate (n - k).toNat '0'
  else if 0 < n ∧ n ≤ 21 then ds.take n.toNat ++ '.' :: ds.drop n.toNat
  else if -6 < n ∧ n ≤ 0 then '0' :: '.' :: (List.replicate (-n).toNat '0' ++ ds)
  else
    let e := n - 1
    let tail := 'e' :: (if e < 0 then '-' else '+') :: decDigits e.natAbs
    if ds.length = 1 then ds ++ tail else ds.take 1 ++ '.' :: (ds.drop 1 ++ tail)

/-- The string of `Number::toString` for a positive finite number. -/
def positiveToString (x : ℚ) : List Char :=
  let r := shortestDigits x (decExp x) 16 1
  formatDigits (decDigits r.1) r.2.1

/-- The abstract operation `Number::toString` in radix ten. -/
def numberToString : JSNum → String
  | JSNum.nan => "NaN"
  | JSNum.posInf => "Infinity"
  | JSNum.negInf => "-Infinity"
  | JSNum.fin q =>
    if q = 0 then "0"
    else if q < 0 then String.mk ('-' :: positiveToString (-q))
    else String.mk (positiveToString q)

/-- The digits of `n` padded with zeros on the left to at least `len` digits. -/
def padZeros (len : ℕ) (ds : List Char) : List Char :=
  List.replicate (len - ds.length) '0' ++ ds

/-- The method `Number.prototype.toFixed(f)` for `f` from 0 to 100: below
`10^21` the integer `n` nearest to `x × 10^f` (the larger of two) written with
`f` digits after the point, and the string of the number from `10^21` on. -/
def toFixed (x : JSNum) (f : ℕ) : String :=
  match x with
  | JSNum.fin q =>
    let s : List Char := if q < 0 then ['-'] else []
    let a := |q|
    if (10 : ℚ) ^ (21 : ℕ) ≤ a then String.mk (s ++ (numberToString (JSNum.fin a)).data)
    else
      let n := ⌊a * 10 ^ f + 1 / 2⌋.toNat
      let m := padZeros (f + 1) (decDigits n)
      let k := m.length
      if f = 0 then String.mk (s ++ m)
      else String.mk (s ++ (m.take (k - f) ++ '.' :: m.drop (k - f)))
  | _ => numberToString x

/-! ## Values and the conversion `Number(v)` -/

/-- The white space and line terminators that `StringToNumber` strips. -/
def isStrWhiteSpace (c : Char) : Bool :=
  let v := c.toNat
  v = 0x09 || v = 0x0A || v = 0x0B || v = 0x0C || v = 0x0D || v = 0x20 || v = 0xA0 ||
  v = 0x1680 || (0x2000 ≤ v && v ≤ 0x200A) || v = 0x2028 || v = 0x2029 || v = 0x202F ||
  v = 0x205F || v = 0x3000 || v = 0xFEFF

/-- The value of a digit in the given base, if the character is one. -/
def digitVal (base : ℕ) (c : Char) : Option ℕ :=
  let v :=
    if c.isDigit then c.toNat - 48
    else if 'a'.toNat ≤ c.toNat ∧ c.toNat ≤ 'f'.toNat then c.toNat - 87
    else if 'A'.toNat ≤ c.toNat ∧ c.toNat ≤ 'F'.toNat then c.toNat - 55
    else base
  if v < base then some v else none

/-- The value of a non-empty string of digits of the given base. -/
def readNat (base : ℕ) (cs : List Char) : Option ℕ :=
  if cs = [] then none
  else cs.foldl (fun acc c => acc.bind (fun a => (digitVal base c).map (fun v => a * base + v)))
    (some 0)

/-- The exponent part after the letter `e`: an optional sign and digits. -/
def readExponent (cs : List Char) : Option ℤ :=
  match cs with
  | '-' :: ds => (readNat 10 ds).map (fun n => -(n : ℤ))
  | '+' :: ds => (readNat 10 ds).map (fun n => (n : ℤ))
  | ds => (readNat 10 ds).map (fun n => (n : ℤ))

/-- The mathematical value of a `StrUnsignedDecimalLiteral` other than
`Infinity`: digits, an optional point with digits on at least one side, and an
optional exponent. -/
def readDecimal (cs : List Char) : Option ℚ :=
  let ip := cs.takeWhile Char.isDigit
  let r1 := cs.dropWhile Char.isDigit
  let hasPoint := r1.head? = some '.'
  let fp := if hasPoint then (r1.drop 1).takeWhile Char.isDigit else []
  let r2 := if hasPoint then (r1.drop 1).dropWhile Char.isDigit else r1
  if ip = [] ∧ fp = [] then none
  else
    match readNat 10 (ip ++ fp) with
    | none => none
    | some m =>
      let mant : ℚ := (m : ℚ) / 10 ^ fp.length
      match r2 with
      | [] => some mant
      | c :: ds =>
        if c = 'e' ∨ c = 'E' then (readExponent ds).map (fun e => mant * 10 ^ e) else none

/-- What a string denotes as a numeric literal. -/
inductive StrValue where
  /-- The string is no `StringNumericLiteral`. -/
  | notNumeric
  /-- The literal `Infinity` with its sign. -/
  | infinity (negative : Bool)
  /-- A literal with a mathematical value. -/
  | real (q : ℚ)

/-- The number of what a string denotes: the mathematical value is rounded. -/
def StrValue.toNumber : StrValue → JSNum
  | StrValue.notNumeric => JSNum.nan
  | StrValue.infinity true => JSNum.negInf
  | StrValue.infinity false => JSNum.posInf
  | StrValue.real q => toDouble q

/-- The value of a `StrNumericLiteral`, already stripped of white space; the
empty string denotes zero. -/
def readNumeric (cs : List Char) : StrValue :=
  let ofNat : Option ℕ → StrValue := fun r =>
    match r with
    | some n => StrValue.real n
    | none => StrValue.notNumeric
  let ofDec : Bool → List Char → StrValue := fun neg ds =>
    if ds = "Infinity".data then StrValue.infinity neg
    else
      match readDecimal ds with
      | some q => StrValue.real (if neg then -q else q)
      | none => StrValue.notNumeric
  match cs with
  | [] => StrValue.real 0
  | '0' :: 'x' :: ds => ofNat (readNat 16 ds)
  | '0' :: 'X' :: ds => ofNat (readNat 16 ds)
  | '0' :: 'o' :: ds => ofNat (readNat 8 ds)
  | '0' :: 'O' :: ds => ofNat (readNat 8 ds)
  | '0' :: 'b' :: ds => ofNat (readNat 2 ds)
  | '0' :: 'B' :: ds => ofNat (readNat 2 ds)
  | '-' :: ds => ofDec true ds
  | '+' :: ds => ofDec false ds
  | ds => ofDec false ds

/-- The abstract operation `StringToNumber`. -/
def stringToNumber (s : String) : JSNum :=
  (readNumeric
    ((s.data.dropWhile isStrWhiteSpace).reverse.dropWhile isStrWhiteSpace).reverse).toNumber

/-- The values a payload is made of: the primitives, arrays and plain objects. -/
inductive JSVal where
  | undefined
  | null
  | bool (b : Bool)
  | num (n : JSNum)
  | str (s : String)
  | arr (items : List JSVal)
  | obj (fields : List (String × JSVal))

namespace JSVal

/-- Whether a plain object has an own property named `key`. -/
def hasOwn (key : String) (fields : List (String × JSVal)) : Bool :=
  fields.any (fun p => p.1 = key)

mutual
/-- The abstract operation `ToString` with room for `room` nested arrays on the
stack.  An array is joined with commas, and throws a `RangeError` when the stack
has no room for it.  A plain object gives `[object Object]` through
`Object.prototype.toString`, and throws a `TypeError` when an own property
`toString`, which is not callable, hides that method. -/
def toStr (room : ℕ) : JSVal → Except String (List Char)
  | undefined => Except.ok "undefined".data
  | null => Except.ok "null".data
  | bool true => Except.ok "true".data
  | bool false => Except.ok "false".data
  | num n => Except.ok (numberToString n).data
  | str s => Except.ok s.data
  | arr items =>
    match room with
    | 0 => Except.error "RangeError"
    | r + 1 => joinItems r items
  | obj fields =>
    if hasOwn "toString" fields then Except.error "TypeError"
    else Except.ok "[object Object]".data
/-- The elements of an array joined with commas, from left to right:
`undefined` and `null` give the empty string. -/
def joinItems (room : ℕ) : List JSVal → Except String (List Char)
  | [] => Except.ok []
  | [undefined] => Except.ok []
  | [null] => Except.ok []
  | [v] => toStr room v
  | undefined :: vs => (joinItems room vs).map (fun r => ',' :: r)
  | null :: vs => (joinItems room vs).map (fun r => ',' :: r)
  | v :: vs => (toStr room v).bind (fun a => (joinItems room vs).map (fun r => a ++ ',' :: r))
end

/-- The conversion `Number(v)` with room for `room` nested arrays on the stack:
an array or object is converted through its string. -/
def toNumber (room : ℕ) : JSVal → Except String JSNum
  | undefined => Except.ok JSNum.nan
  | null => Except.ok (JSNum.fin 0)
  | bool true => Except.ok (JSNum.fin 1)
  | bool false => Except.ok (JSNum.fin 0)
  | num n => Except.ok n
  | str s => Except.ok (stringToNumber s)
  | v => (toStr room v).map (fun cs => stringToNumber (String.mk cs))

/-- The primitive values: every value but the arrays and the objects. -/
def isPrimitive : JSVal → Bool
  | arr _ => false
  | obj _ => false
  | _ => true

/-- The value of the first field named `key` in a list of fields. -/
def lookup (key : String) : List (String × JSVal) → JSVal
  | [] => undefined
  | (k, v) :: rest => if k = key then v else lookup key rest

/-- The optional property access `data?.key` for a key that no prototype
defines. -/
def getProp (data : JSVal) (key : String) : JSVal :=
  match data with
  | obj fields => lookup key fields
  | _ => undefined

end JSVal

/-! ## The document -/

/-- The properties of the page elements the script reads and writes. -/
structure Dom where
  /-- The text of `#time`. -/
  time : String
  /-- The text of `#date`. -/
  date : String
  /-- The text of `#conn-status`. -/
  connText : String
  /-- The class of `#conn-status`. -/
  connClass : String
  /-- The text of `#outside-temp`. -/
  outsideTemp : String
  /-- The text of `#outside-humidity`. -/
  outsideHum : String
  /-- The text of `#indoor-temp`. -/
  indoorTemp : String
  /-- The text of `#indoor-humidity`. -/
  indoorHum : String
  /-- The attribute `min` of `#temp-slider`. -/
  tempSliderMin : String
  /-- The attribute `max` of `#temp-slider`. -/
  tempSliderMax : String
  /-- The number assigned to the `value` of `#temp-slider`. -/
  tempSliderValue : JSNum
  /-- The width of `#temp-slider-fill`. -/
  tempFillWidth : String
  /-- The number assigned to the `value` of `#humidity-slider`. -/
  humSliderValue : JSNum
  /-- The width of `#humidity-slider-fill`. -/
  humFillWidth : String
  deriving DecidableEq

/-- What a call reads from its environment: the two strings `updateClock`
formats from `new Date()`, and the number of nested arrays the stack of the
engine has room for. -/
structure Moment where
  timeText : String
  dateText : String
  stackRoom : ℕ
  deriving DecidableEq

/-- The function `setConn(status, mode)`; `mode` is a non-empty string at every
call of the script, so the default class `conn-off` is never substituted. -/
def setConn (d : Dom) (status mode : String) : Dom :=
  { d with connText := status
           connClass := "conn-status " ++ (if mode = "" then "conn-off" else mode) }

/-- The function `fmtNum(n, digits, fallback)`, which the script defines and
does not call. -/
def fmtNum (room : ℕ) (n : JSVal) (digits : ℕ) (fallback : String) : Except String String :=
  (n.toNumber room).map (fun v => if v.isFinite then toFixed v digits else fallback)

/-- The function `clamp(n, min, max)`. -/
def clamp (n min max : JSNum) : JSNum :=
  JSNum.min max (JSNum.max min n)

/-- The function `updateClock()`. -/
def updateClock (d : Dom) (now : Moment) : Dom :=
  { d with time := now.timeText, date := now.dateText }

/-- The function `setTempUI(tempC)`. -/
def setTempUI (d : Dom) (tempC : JSNum) : Dom :=
  if !tempC.isFinite then
    { d with outsideTemp := "--.-°C"
             indoorTemp := "--.-°C"
             tempSliderValue := JSNum.fin 0
             tempFillWidth := "0%" }
  else
    let min := stringToNumber d.tempSliderMin
    let max := stringToNumber d.tempSliderMax
    let val := clamp tempC min max
    let pct := ((val.sub min).div (max.sub min)).mul (JSNum.fin 100)
    { d with outsideTemp := toFixed tempC 1 ++ "°C"
             indoorTemp := toFixed tempC 1 ++ "°C"
             tempSliderValue := val
             tempFillWidth := numberToString pct ++ "%" }

/-- The function `setHumidityUI(h)`. -/
def setHumidityUI (d : Dom) (h : JSNum) : Dom :=
  if !h.isFinite then
    { d with outsideHum := "--%"
             indoorHum := "--%"
             humSliderValue := JSNum.fin 0
             humFillWidth := "0%" }
  else
    let hInt := clamp h.round (JSNum.fin 0) (JSNum.fin 100)
    { d with outsideHum := numberToString hInt ++ "%"
             indoorHum := numberToString hInt ++ "%"
             humSliderValue := hInt
             humFillWidth := numberToString hInt ++ "%" }

/-- The function `updateWeatherUI(data)`: both conversions come before the
first write to the document, so a conversion that throws leaves it untouched. -/
def updateWeatherUI (d : Dom) (data : JSVal) (now : Moment) : Except String Dom :=
  ((data.getProp "temp_c").toNumber now.stackRoom).bind fun temp =>
    ((data.getProp "humidity").toNumber now.stackRoom).map fun hum =>
      updateClock (setHumidityUI (setTempUI d temp) hum) now

/-! ## Networking: the socket with the polling fallback -/

/-- The attribute `readyState` of a socket. -/
inductive ReadyState where
  | CONNECTING
  | OPEN
  | CLOSING
  | CLOSED
  deriving DecidableEq

/-- The three closures `connectWS` installs on a socket. -/
inductive Handler where
  /-- The arrow function assigned to `ws.onopen`. -/
  | onOpen
  /-- The arrow function assigned to `ws.onmessage`. -/
  | onMessage
  /-- The function `handleCloseOrError`. -/
  | closeOrError
  deriving DecidableEq

/-- A socket object: its address, its state and its four handler properties. -/
structure WebSocket where
  url : String
  readyState : ReadyState
  onopen : Option Handler
  onmessage : Option Handler
  onclose : Option Handler
  onerror : Option Handler
  deriving DecidableEq

/-- The functions the script passes to `setInterval`. -/
inductive Callback where
  | updateClock
  | pollOnce
  /-- The arrow function of the reconnect loop, which calls `connectWS`. -/
  | retry
  deriving DecidableEq

/-- A live interval timer. -/
structure Timer where
  id : ℕ
  callback : Callback
  intervalMs : ℕ
  deriving DecidableEq

/-- The two properties of `location` that `connectWS` reads. -/
structure Location where
  protocol : String
  host : String
  deriving DecidableEq

/-- The page: the document, the three module variables of the script, and the
sockets, interval timers and requests the browser holds for it. -/
structure State where
  dom : Dom
  location : Location
  /-- The variable `pollTimer`: `null` or a timer handle. -/
  pollTimer : Option ℕ
  /-- The variable `retryTimer`: `null` or a timer handle. -/
  retryTimer : Option ℕ
  /-- The variable `ws`: `null` or a reference into `sockets`. -/
  ws : Option ℕ
  /-- Every socket created so far, in the order of creation. -/
  sockets : List WebSocket
  /-- The live interval timers. -/
  timers : List Timer
  /-- The handle the next `setInterval` returns. -/
  nextTimerId : ℕ
  /-- The number of requests `GET /api/latest` issued so far. -/
  fetchesIssued : ℕ
  /-- The number of requests still in flight. -/
  fetchesPending : ℕ
  deriving DecidableEq

/-- The truth value of a timer variable in a condition: `null` and the number
zero are false. -/
def truthy : Option ℕ → Bool
  | some (_ + 1) => true
  | _ => false

/-- The call `setInterval(callback, ms)`: the state with the new timer, and the
handle. -/
def setInterval (s : State) (callback : Callback) (ms : ℕ) : State × ℕ :=
  ({ s with timers := s.timers ++ [⟨s.nextTimerId, callback, ms⟩]
            nextTimerId := s.nextTimerId + 1 }, s.nextTimerId)

/-- The call `clearInterval(id)`. -/
def clearInterval (s : State) (id : ℕ) : State :=
  { s with timers := s.timers.filter (fun t => t.id ≠ id) }

/-- The outcome of a request `fetch("/api/latest")` followed by `r.json()`. -/
inductive FetchResult where
  /-- The promise of `fetch` rejects: no response was received. -/
  | networkError
  /-- A response with the given HTTP status arrived; `body` is the value
  `r.json()` resolves to, or `none` when it rejects. -/
  | response (status : ℕ) (body : Option JSVal)

/-- The function `pollOnce()` up to its first `await`: the request is issued. -/
def pollOnce (s : State) : State :=
  { s with fetchesIssued := s.fetchesIssued + 1, fetchesPending := s.fetchesPending + 1 }

/-- The rest of `pollOnce()`, run when the request settles: the `catch` block
runs when `fetch` or `r.json()` rejects and when `updateWeatherUI` throws. -/
def pollOnceResume (s : State) (r : FetchResult) (now : Moment) : State :=
  match r with
  | FetchResult.response _ (some j) =>
    match updateWeatherUI s.dom j now with
    | Except.ok d => { s with dom := setConn d "Polling /api/latest" "conn-fallback" }
    | Except.error _ => { s with dom := setConn s.dom "Offline" "conn-off" }
  | _ => { s with dom := setConn s.dom "Offline" "conn-off" }

/-- The function `startPolling(intervalMs)`. -/
def startPolling (s : State) (intervalMs : ℕ) : State :=
  if truthy s.pollTimer then s
  else
    let r := setInterval s Callback.pollOnce intervalMs
    pollOnce { r.1 with pollTimer := some r.2 }

/-- The function `stopPolling()`. -/
def stopPolling (s : State) : State :=
  if truthy s.pollTimer then
    match s.pollTimer with
    | some id => { clearInterval s id with pollTimer := none }
    | none => s
  else s

/-- The condition of the first line of `connectWS`: `ws` is set and its
`readyState` is `OPEN` or `CONNECTING`. -/
def wsActive (s : State) : Bool :=
  match s.ws with
  | none => false
  | some i =>
    match s.sockets.get? i with
    | some w => w.readyState = ReadyState.OPEN || w.readyState = ReadyState.CONNECTING
    | none => false

/-- The function `connectWS()`. -/
def connectWS (s : State) : State :=
  if wsActive s then s
  else
    let proto := if s.location.protocol = "https:" then "wss" else "ws"
    let w : WebSocket :=
      { url := proto ++ "://" ++ s.location.host ++ "/ws"
        readyState := ReadyState.CONNECTING
        onopen := some Handler.onOpen
        onmessage := some Handler.onMessage
        onclose := some Handler.closeOrError
        onerror := some Handler.closeOrError }
    { s with ws := some s.sockets.length, sockets := s.sockets ++ [w] }

/-- The handler `ws.onopen`. -/
def onOpen (s : State) : State :=
  stopPolling { s with dom := setConn s.dom "Live via WebSocket" "conn-ok" }

/-- The handler `ws.onmessage`; `parsed` is the outcome of `JSON.parse(ev.data)`,
an error when it throws.  An error of `JSON.parse` or of `updateWeatherUI` is
caught and dropped. -/
def onMessage (s : State) (parsed : Except String JSVal) (now : Moment) :
    Except String State :=
  match (parsed.bind fun data =>
      (updateWeatherUI s.dom data now).map fun d => { s with dom := d }) with
  | Except.ok s1 => Except.ok s1
  | Except.error _ => Except.ok s

/-- The function `handleCloseOrError`. -/
def handleCloseOrError (s : State) : State :=
  let s1 := startPolling { s with dom := setConn s.dom "WS unavailable → polling" "conn-fallback" }
    2000
  if !truthy s1.retryTimer then
    let r := setInterval s1 Callback.retry 5000
    { r.1 with retryTimer := some r.2 }
  else s1

/-- The boot sequence at the end of the script, on the page as loaded. -/
def boot (dom : Dom) (location : Location) (now : Moment) : State :=
  let s0 : State :=
    { dom := updateClock dom now
      location := location
      pollTimer := none
      retryTimer := none
      ws := none
      sockets := []
      timers := []
      nextTimerId := 1
      fetchesIssued := 0
      fetchesPending := 0 }
  connectWS (setInterval s0 Callback.updateClock 15000).1

/-- What the browser delivers to the page. -/
inductive Event where
  /-- The event `open` of socket `i`. -/
  | socketOpen (i : ℕ)
  /-- The event `message` of socket `i`, with the outcome of `JSON.parse`. -/
  | socketMessage (i : ℕ) (parsed : Except String JSVal) (now : Moment)
  /-- The event `error` of socket `i`. -/
  | socketError (i : ℕ)
  /-- The event `close` of socket `i`. -/
  | socketClose (i : ℕ)
  /-- A tick of the interval timer that runs `pollOnce`. -/
  | pollTick
  /-- A tick of the interval timer of the reconnect loop. -/
  | retryTick
  /-- A tick of the interval timer that runs `updateClock`. -/
  | clockTick (now : Moment)
  /-- A request in flight settles. -/
  | fetchDone (r : FetchResult) (now : Moment)

/-- The state with the `readyState` of socket `i` replaced. -/
def setReadyState (s : State) (i : ℕ) (r : ReadyState) : State :=
  { s with sockets := s.sockets.modify (fun w => { w with readyState := r }) i }

/-- The call of a handler property of a socket for an event without payload. -/
def runHandler (s : State) : Option Handler → State
  | some Handler.onOpen => onOpen s
  | some Handler.closeOrError => handleCloseOrError s
  | _ => s

/-- Whether an interval timer with the given callback is live. -/
def timerLive (s : State) (c : Callback) : Bool :=
  s.timers.any (fun t => t.callback = c)

/-- One turn of the event loop.  An event that the browser cannot deliver in
the state (a socket that does not exist or is not in the state the event needs,
a timer that is not live, no request in flight) leaves the state as it is.  The
browser sets `readyState` before it calls the handler. -/
def step (s : State) : Event → State
  | Event.socketOpen i =>
    match s.sockets.get? i with
    | some w =>
      if w.readyState = ReadyState.CONNECTING then
        runHandler (setReadyState s i ReadyState.OPEN) w.onopen
      else s
    | none => s
  | Event.socketMessage i parsed now =>
    match s.sockets.get? i with
    | some w =>
      if w.readyState = ReadyState.OPEN ∧ w.onmessage = some Handler.onMessage then
        match onMessage s parsed now with
        | Except.ok s1 => s1
        | Except.error _ => s
      else s
    | none => s
  | Event.socketError i =>
    match s.sockets.get? i with
    | some w => runHandler (setReadyState s i ReadyState.CLOSED) w.onerror
    | none => s
  | Event.socketClose i =>
    match s.sockets.get? i with
    | some w => runHandler (setReadyState s i ReadyState.CLOSED) w.onclose
    | none => s
  | Event.pollTick => if timerLive s Callback.pollOnce then pollOnce s else s
  | Event.retryTick => if timerLive s Callback.retry then connectWS s else s
  | Event.clockTick now =>
    if timerLive s Callback.updateClock then { s with dom := updateClock s.dom now } else s
  | Event.fetchDone r now =>
    if 0 < s.fetchesPending then
      pollOnceResume { s with fetchesPending := s.fetchesPending - 1 } r now
    else s

/-- The state after a sequence of events. -/
def run (s : State) (events : List Event) : State :=
  events.foldl step s

/-! ## Notions of the specification and sample inputs -/

/-- A character other than the first letters of the words `NaN`, `Infinity`
and `undefined`. -/
def Plain (c : Char) : Prop := c ≠ 'N' ∧ c ≠ 'I' ∧ c ≠ 'u'

/-- A number formatted with exactly one decimal place: the numeral of the
tenths nearest to `q`, a tie going away from zero, as integer digits, a point
and one digit, with a minus sign when `q` is negative. -/
def oneDecimal (q : ℚ) : String :=
  let n := ⌊|q| * 10 + 1 / 2⌋.toNat
  String.mk ((if q < 0 then ['-'] else []) ++ (decDigits (n / 10) ++ ['.', Nat.digitChar (n % 10)]))

/-- The gauge percentage of the specification,
`((clamp(tempC, min, max) - min) / (max - min)) * 100`, in binary64 arithmetic. -/
def gaugePercent (tempC min max : JSNum) : JSNum :=
  (((clamp tempC min max).sub min).div (max.sub min)).mul (JSNum.fin 100)

/-- The status line of the live stream. -/
def StatusLive (s : State) : Prop :=
  s.dom.connText = "Live via WebSocket" ∧ s.dom.connClass = "conn-status conn-ok"

/-- The status line of the polling fallback entered when the socket fails. -/
def StatusFallback (s : State) : Prop :=
  s.dom.connText = "WS unavailable → polling" ∧ s.dom.connClass = "conn-status conn-fallback"

/-- The status line after a successful pull. -/
def StatusPolling (s : State) : Prop :=
  s.dom.connText = "Polling /api/latest" ∧ s.dom.connClass = "conn-status conn-fallback"

/-- The status line after a failed pull. -/
def StatusOffline (s : State) : Prop :=
  s.dom.connText = "Offline" ∧ s.dom.connClass = "conn-status conn-off"

/-- The events `close` and `error` of a socket. -/
def Event.isCloseOrError : Event → Bool
  | Event.socketClose _ => true
  | Event.socketError _ => true
  | _ => false

/-- The events `close` and `error` of the first socket. -/
def Event.isFirstCloseOrError : Event → Bool
  | Event.socketClose 0 => true
  | Event.socketError 0 => true
  | _ => false

/-- The events `open`, `close` and `error` of a socket. -/
def Event.isSocketEvent : Event → Bool
  | Event.socketOpen _ => true
  | Event.socketClose _ => true
  | Event.socketError _ => true
  | _ => false

/-- The tick of the reconnect timer. -/
def Event.isRetryTick : Event → Bool
  | Event.retryTick => true
  | _ => false

/-- The settling of a request. -/
def Event.isFetchDone : Event → Bool
  | Event.fetchDone _ _ => true
  | _ => false

/-- The live interval timers with the given callback. -/
def timersOf (s : State) (c : Callback) : List Timer :=
  s.timers.filter (fun t => t.callback = c)

/-- The timer discipline of the manager: at most one poll timer and at most one
retry timer are live, a live poll timer is the one recorded in `pollTimer` and
runs every 2000 ms, a live retry timer is the one recorded in `retryTimer` and
runs every 5000 ms, and a recorded handle is the handle of a live timer of its
kind. -/
def TimersRecorded (s : State) : Prop :=
  (timersOf s Callback.pollOnce).length ≤ 1 ∧
  (timersOf s Callback.retry).length ≤ 1 ∧
  (∀ t ∈ s.timers, t.callback = Callback.pollOnce →
    s.pollTimer = some t.id ∧ t.intervalMs = 2000) ∧
  (∀ t ∈ s.timers, t.callback = Callback.retry →
    s.retryTimer = some t.id ∧ t.intervalMs = 5000) ∧
  (∀ id, s.pollTimer = some id → ∃ t ∈ s.timers, t.id = id ∧ t.callback = Callback.pollOnce) ∧
  (∀ id, s.retryTimer = some id → ∃ t ∈ s.timers, t.id = id ∧ t.callback = Callback.retry)

/-- The invariant of the event loop that carries `TimersRecorded`: handles are
positive, fresh and pairwise distinct, and every socket has the handlers that
`connectWS` installs. -/
def Inv (s : State) : Prop :=
  1 ≤ s.nextTimerId ∧
  (∀ t ∈ s.timers, 1 ≤ t.id ∧ t.id < s.nextTimerId) ∧
  (s.timers.map Timer.id).Nodup ∧
  (∀ t ∈ s.timers, t.callback = Callback.pollOnce →
    s.pollTimer = some t.id ∧ t.intervalMs = 2000) ∧
  (∀ t ∈ s.timers, t.callback = Callback.retry →
    s.retryTimer = some t.id ∧ t.intervalMs = 5000) ∧
  (∀ id, s.pollTimer = some id → ∃ t ∈ s.timers, t.id = id ∧ t.callback = Callback.pollOnce) ∧
  (∀ id, s.retryTimer = some id → ∃ t ∈ s.timers, t.id = id ∧ t.callback = Callback.retry) ∧
  (∀ w ∈ s.sockets, w.onopen = some Handler.onOpen ∧ w.onmessage = some Handler.onMessage ∧
    w.onclose = some Handler.closeOrError ∧ w.onerror = some Handler.closeOrError)

/-- The socket `connectWS` creates on the page at `loc`, in the state `r`. -/
def socketAt (loc : Location) (r : ReadyState) : WebSocket :=
  { url := (if loc.protocol = "https:" then "wss" else "ws") ++ "://" ++ loc.host ++ "/ws"
    readyState := r
    onopen := some Handler.onOpen
    onmessage := some Handler.onMessage
    onclose := some Handler.closeOrError
    onerror := some Handler.closeOrError }

/-- The state of the scenario before the first socket has opened (`r` is
`CONNECTING`) and while it is open (`r` is `OPEN`): no request has been issued
and only the timer of the clock is live. -/
def stageFirst (dom : Dom) (loc : Location) (r : ReadyState) : State :=
  { dom := dom, location := loc, pollTimer := none, retryTimer := none, ws := some 0
    sockets := [socketAt loc r]
    timers := [⟨1, Callback.updateClock, 15000⟩]
    nextTimerId := 2, fetchesIssued := 0, fetchesPending := 0 }

/-- The state of the scenario while polling: the first socket is closed, the
poll timer and the retry timer are live; `second` holds the state of the second
socket once the reconnect loop has created it. -/
def stagePolling (dom : Dom) (loc : Location) (second : Option ReadyState)
    (issued pending : ℕ) : State :=
  { dom := dom, location := loc, pollTimer := some 2, retryTimer := some 3
    ws := if second.isSome then some 1 else some 0
    sockets := socketAt loc ReadyState.CLOSED :: (second.map (socketAt loc)).toList
    timers := [⟨1, Callback.updateClock, 15000⟩, ⟨2, Callback.pollOnce, 2000⟩,
      ⟨3, Callback.retry, 5000⟩]
    nextTimerId := 4, fetchesIssued := issued, fetchesPending := pending }

/-- The state of the scenario once the second socket has opened: the poll timer
is cancelled and the retry timer is live. -/
def stageReopened (dom : Dom) (loc : Location) (issued pending : ℕ) : State :=
  { dom := dom, location := loc, pollTimer := none, retryTimer := some 3, ws := some 1
    sockets := [socketAt loc ReadyState.CLOSED, socketAt loc ReadyState.OPEN]
    timers := [⟨1, Callback.updateClock, 15000⟩, ⟨3, Callback.retry, 5000⟩]
    nextTimerId := 4, fetchesIssued := issued, fetchesPending := pending }

/-- A page whose temperature slider has the range from -20 to 50 that the
comment above `setTempUI` records, and whose texts are empty. -/
def samplePage : Dom :=
  { time := "", date := "", connText := "", connClass := "", outsideTemp := "",
    outsideHum := "", indoorTemp := "", indoorHum := "", tempSliderMin := "-20",
    tempSliderMax := "50", tempSliderValue := JSNum.fin 0, tempFillWidth := "0%",
    humSliderValue := JSNum.fin 0, humFillWidth := "0%" }

/-- Some moment, with room for ten thousand nested arrays. -/
def sampleMoment : Moment :=
  { timeText := "12:00", dateText := "Monday, January 1", stackRoom := 10000 }

/-- The address of a page served over plain HTTP. -/
def sampleLocation : Location := { protocol := "http:", host := "localhost:8000" }

/-- The payload `{t: 1000, temp_c: 21.5, humidity: 47}`. -/
def sampleReading : JSVal :=
  JSVal.obj [("t", JSVal.num (JSNum.fin 1000)), ("temp_c", JSVal.num (JSNum.fin (43 / 2))),
    ("humidity", JSVal.num (JSNum.fin 47))]

/-- The payload `{t: 1000, temp_c: null, humidity: null}`. -/
def nullReading : JSVal :=
  JSVal.obj [("t", JSVal.num (JSNum.fin 1000)), ("temp_c", JSVal.null),
    ("humidity", JSVal.null)]

/-- The payload `{humidity: {toString: 1}}`, which has no `temp_c`. -/
def badReading : JSVal :=
  JSVal.obj [("humidity", JSVal.obj [("toString", JSVal.num (JSNum.fin 1))])]

/-- The page after it has displayed the payload `{t: 1000, temp_c: 21.5, humidity: 47}`. -/
def shownPage : Dom :=
  { samplePage with outsideTemp := "21.5°C", indoorTemp := "21.5°C", outsideHum := "47%",
                    indoorHum := "47%" }

/-- A page whose temperature slider has the range from -1e308 to 1e308. -/
def widePage : Dom :=
  { samplePage with tempSliderMin := "-1e308", tempSliderMax := "1e308" }

/-- The payload `{t: 1000, temp_c: 1e21, humidity: 47}`. -/
def hugeReading : JSVal :=
  JSVal.obj [("t", JSVal.num (JSNum.fin 1000)), ("temp_c", JSVal.num (JSNum.fin (10 ^ 21))),
    ("humidity", JSVal.num (JSNum.fin 47))]

/-- The events between the `close` of the first socket and the first tick of the
reconnect timer at 5 s: the pull issued on `close` is answered, the poll timer
ticks at 2 s, that pull is answered, and the poll timer ticks at 4 s. -/
def pollingEvents : List Event :=
  [Event.fetchDone (FetchResult.response 200 (some sampleReading)) sampleMoment,
    Event.pollTick,
    Event.fetchDone (FetchResult.response 200 (some sampleReading)) sampleMoment,
    Event.pollTick]

/-- The scenario of the specification with the events of the polling phase, up
to the `open` of the second socket. -/
def reconnectTrace : List Event :=
  [] ++ [Event.socketOpen 0] ++ [] ++ [Event.socketClose 0] ++ pollingEvents ++
    [Event.retryTick] ++ [] ++ [Event.socketOpen 1]

/-- The answer to the pull of 4 s, which arrives after the reconnect. -/
def lateResponse : List Event :=
  [Event.fetchDone (FetchResult.response 200 (some sampleReading)) sampleMoment]

/-! ## Properties -/

set_option maxRecDepth 1000000

/-! ### Rounding to binary64 -/

theorem natLog2Aux_spec (fuel : ℕ) : ∀ n : ℕ, n ≤ fuel → 0 < n →
    2 ^ natLog2Aux fuel n ≤ n ∧ n < 2 ^ (natLog2Aux fuel n + 1) := by
  induction fuel with
  | zero => intro n h1 h2; omega
  | succ fuel ih =>
    intro n h1 h2
    simp only [natLog2Aux]
    split_ifs with h
    · simp only [pow_zero, zero_add, pow_one]; omega
    · obtain ⟨a, b⟩ := ih (n / 2) (by omega) (by omega)
      rw [pow_succ] at b ⊢
      rw [pow_succ (2 : ℕ) (natLog2Aux fuel (n / 2) + 1), pow_succ]
      generalize 2 ^ natLog2Aux fuel (n / 2) = p at a b ⊢
      omega

theorem natLog2_spec (n : ℕ) (h : 0 < n) :
    2 ^ natLog2 n ≤ n ∧ n < 2 ^ (natLog2 n + 1) :=
  natLog2Aux_spec n n le_rfl h

theorem two_zpow_pos (e : ℤ) : (0 : ℚ) < 2 ^ e := zpow_pos (by norm_num) e

theorem floorLog2_spec (a : ℚ) (ha : 0 < a) :
    (2 : ℚ) ^ floorLog2 a ≤ a ∧ a < (2 : ℚ) ^ (floorLog2 a + 1) := by
  have hnum : 0 < a.num := Rat.num_pos.2 ha
  have hp : 0 < a.num.toNat := by omega
  have hq : 0 < a.den := a.den_pos
  obtain ⟨p1, p2⟩ := natLog2_spec _ hp
  obtain ⟨q1, q2⟩ := natLog2_spec _ hq
  have hpa : ((a.num.toNat : ℕ) : ℚ) = (a.num : ℚ) := by
    have : ((a.num.toNat : ℕ) : ℤ) = a.num := Int.toNat_of_nonneg hnum.le
    exact_mod_cast congrArg (fun z : ℤ => (z : ℚ)) this
  have hA : a = (a.num.toNat : ℚ) / (a.den : ℚ) := by
    rw [hpa]; exact (Rat.num_div_den a).symm
  set lp := natLog2 a.num.toNat with hlp
  set lq := natLog2 a.den with hlq
  have P1 : (2 : ℚ) ^ (lp : ℤ) ≤ (a.num.toNat : ℚ) := by
    rw [zpow_natCast]; exact_mod_cast p1
  have P2 : ((a.num.toNat : ℕ) : ℚ) < (2 : ℚ) ^ ((lp : ℤ) + 1) := by
    have : ((lp : ℤ) + 1) = ((lp + 1 : ℕ) : ℤ) := by push_cast; rfl
    rw [this, zpow_natCast]; exact_mod_cast p2
  have Q1 : (2 : ℚ) ^ (lq : ℤ) ≤ (a.den : ℚ) := by
    rw [zpow_natCast]; exact_mod_cast q1
  have Q2 : ((a.den : ℕ) : ℚ) < (2 : ℚ) ^ ((lq : ℤ) + 1) := by
    have : ((lq : ℤ) + 1) = ((lq + 1 : ℕ) : ℤ) := by push_cast; rfl
    rw [this, zpow_natCast]; exact_mod_cast q2
  have hqq : (0 : ℚ) < (a.den : ℚ) := by exact_mod_cast hq
  -- the two outer bounds
  have lower : (2 : ℚ) ^ ((lp : ℤ) - (lq : ℤ) - 1) < a := by
    have e : (2 : ℚ) ^ ((lp : ℤ) - (lq : ℤ) - 1) = 2 ^ (lp : ℤ) / 2 ^ ((lq : ℤ) + 1) := by
      rw [← zpow_sub₀ (by norm_num : (2 : ℚ) ≠ 0)]; congr 1; ring
    rw [e, hA]
    calc (2 : ℚ) ^ (lp : ℤ) / 2 ^ ((lq : ℤ) + 1)
        < 2 ^ (lp : ℤ) / (a.den : ℚ) :=
          div_lt_div_of_pos_left (two_zpow_pos _) hqq Q2
      _ ≤ (a.num.toNat : ℚ) / (a.den : ℚ) := div_le_div_of_nonneg_right P1 hqq.le
  have upper : a < (2 : ℚ) ^ ((lp : ℤ) - (lq : ℤ) + 1) := by
    have e : (2 : ℚ) ^ ((lp : ℤ) - (lq : ℤ) + 1) = 2 ^ ((lp : ℤ) + 1) / 2 ^ (lq : ℤ) := by
      rw [← zpow_sub₀ (by norm_num : (2 : ℚ) ≠ 0)]; congr 1; ring
    rw [e]
    calc a = (a.num.toNat : ℚ) / (a.den : ℚ) := hA
      _ < 2 ^ ((lp : ℤ) + 1) / (a.den : ℚ) := div_lt_div_of_pos_right P2 hqq
      _ ≤ 2 ^ ((lp : ℤ) + 1) / 2 ^ (lq : ℤ) :=
          div_le_div_of_nonneg_left (two_zpow_pos _).le (two_zpow_pos _) Q1
  unfold floorLog2
  simp only
  split_ifs with h
  · refine ⟨lower.le, ?_⟩
    have : ((lp : ℤ) - (lq : ℤ) - 1 + 1) = (lp : ℤ) - (lq : ℤ) := by ring
    rw [this]; exact h
  · exact ⟨not_lt.1 h, upper⟩

theorem floorLog2_mono {a b : ℚ} (ha : 0 < a) (hab : a ≤ b) : floorLog2 a ≤ floorLog2 b := by
  have h1 := (floorLog2_spec a ha).1
  have h2 := (floorLog2_spec b (lt_of_lt_of_le ha hab)).2
  have : (2 : ℚ) ^ floorLog2 a < 2 ^ (floorLog2 b + 1) := lt_of_le_of_lt (le_trans h1 hab) h2
  have := (zpow_lt_zpow_iff_right₀ (by norm_num : (1 : ℚ) < 2)).1 this
  omega

theorem roundHalfEven_bounds (x : ℚ) :
    ⌊x⌋ ≤ roundHalfEven x ∧ roundHalfEven x ≤ ⌊x⌋ + 1 := by
  unfold roundHalfEven
  simp only
  split_ifs <;> constructor <;> omega

theorem roundHalfEven_mono {x y : ℚ} (h : x ≤ y) : roundHalfEven x ≤ roundHalfEven y := by
  have hf : ⌊x⌋ ≤ ⌊y⌋ := Int.floor_le_floor h
  rcases lt_or_eq_of_le hf with hlt | heq
  · have := (roundHalfEven_bounds x).2
    have := (roundHalfEven_bounds y).1
    omega
  · have hr : x - ⌊x⌋ ≤ y - ⌊y⌋ := by rw [heq]; linarith
    unfold roundHalfEven
    simp only
    rw [heq] at hr ⊢
    split_ifs <;> first | omega | (exfalso; linarith)

theorem roundHalfEven_intCast (n : ℤ) : roundHalfEven (n : ℚ) = n := by
  unfold roundHalfEven
  simp

theorem pow53 (e : ℤ) : ((2 ^ 53 : ℤ) : ℚ) * 2 ^ (e - 52) = 2 ^ (e + 1) := by
  have h : ((2 ^ 53 : ℤ) : ℚ) = (2 : ℚ) ^ (53 : ℤ) := by norm_num
  rw [h, ← zpow_add₀ (by norm_num : (2 : ℚ) ≠ 0)]
  congr 1; ring

theorem pow52 (e : ℤ) : ((2 ^ 52 : ℤ) : ℚ) * 2 ^ (e - 52) = 2 ^ e := by
  have h : ((2 ^ 52 : ℤ) : ℚ) = (2 : ℚ) ^ (52 : ℤ) := by norm_num
  rw [h, ← zpow_add₀ (by norm_num : (2 : ℚ) ≠ 0)]
  congr 1; ring

theorem roundMag_eq (a : ℚ) :
    roundMag a = roundHalfEven (a / 2 ^ (Max.max (floorLog2 a) (-1022) - 52)) *
      2 ^ (Max.max (floorLog2 a) (-1022) - 52) := rfl

theorem roundMag_nonneg (a : ℚ) (ha : 0 < a) : 0 ≤ roundMag a := by
  rw [roundMag_eq]
  have hu := two_zpow_pos (Max.max (floorLog2 a) (-1022) - 52)
  have h0 : (0 : ℤ) ≤ roundHalfEven (a / 2 ^ (Max.max (floorLog2 a) (-1022) - 52)) := by
    have := roundHalfEven_mono (div_pos ha hu).le
    rw [show (0 : ℚ) = ((0 : ℤ) : ℚ) by norm_num, roundHalfEven_intCast] at this
    exact this
  exact mul_nonneg (by exact_mod_cast h0) hu.le

theorem roundMag_le_pow (a : ℚ) (ha : 0 < a) :
    roundMag a ≤ 2 ^ (Max.max (floorLog2 a) (-1022) + 1) := by
  rw [roundMag_eq]
  set e := Max.max (floorLog2 a) (-1022) with he
  have hu := two_zpow_pos (e - 52)
  have hlt : a < 2 ^ (e + 1) :=
    lt_of_lt_of_le (floorLog2_spec a ha).2
      (zpow_le_zpow_right₀ (by norm_num) (by have := le_max_left (floorLog2 a) (-1022); omega))
  have hdiv : a / 2 ^ (e - 52) ≤ ((2 ^ 53 : ℤ) : ℚ) := by
    rw [div_le_iff₀ hu]
    rw [pow53]; exact hlt.le
  have hr := roundHalfEven_mono hdiv
  rw [roundHalfEven_intCast] at hr
  rw [← pow53]
  exact mul_le_mul_of_nonneg_right (by exact_mod_cast hr) hu.le

theorem pow_le_roundMag (b : ℚ) (hb : 0 < b) (hn : -1022 ≤ floorLog2 b) :
    2 ^ floorLog2 b ≤ roundMag b := by
  rw [roundMag_eq, max_eq_left hn]
  set e := floorLog2 b with he
  have hu := two_zpow_pos (e - 52)
  have hdiv : ((2 ^ 52 : ℤ) : ℚ) ≤ b / 2 ^ (e - 52) := by
    rw [le_div_iff₀ hu]
    rw [pow52]; exact (floorLog2_spec b hb).1
  have hr := roundHalfEven_mono hdiv
  rw [roundHalfEven_intCast] at hr
  rw [← pow52 e]
  exact mul_le_mul_of_nonneg_right (by exact_mod_cast hr) hu.le

/-- Rounding does not reverse the order of two positive reals. -/
theorem roundMag_mono {a b : ℚ} (ha : 0 < a) (hab : a ≤ b) : roundMag a ≤ roundMag b := by
  have hb : 0 < b := lt_of_lt_of_le ha hab
  have hf := floorLog2_mono ha hab
  rcases lt_or_eq_of_le (max_le_max hf (le_refl (-1022 : ℤ))) with hlt | heq
  · have hbn : -1022 ≤ floorLog2 b := by
      by_contra hcon
      rw [max_eq_right (by omega : floorLog2 b ≤ -1022)] at hlt
      have := le_max_right (floorLog2 a) (-1022)
      omega
    rw [max_eq_left hbn] at hlt
    calc roundMag a ≤ 2 ^ (Max.max (floorLog2 a) (-1022) + 1) := roundMag_le_pow a ha
      _ ≤ 2 ^ floorLog2 b := zpow_le_zpow_right₀ (by norm_num) (by omega)
      _ ≤ roundMag b := pow_le_roundMag b hb hbn
  · rw [roundMag_eq, roundMag_eq, heq]
    have hu := two_zpow_pos (Max.max (floorLog2 b) (-1022) - 52)
    have := roundHalfEven_mono (div_le_div_of_nonneg_right hab hu.le)
    exact mul_le_mul_of_nonneg_right (by exact_mod_cast this) hu.le

/-- Every rounded magnitude is a whole multiple of the least subnormal number. -/
theorem roundMag_grid (a : ℚ) : ∃ k : ℤ, roundMag a = k * 2 ^ (-1074 : ℤ) := by
  rw [roundMag_eq]
  set e := Max.max (floorLog2 a) (-1022) with he
  have hge : -1022 ≤ e := le_max_right _ _
  refine ⟨roundHalfEven (a / 2 ^ (e - 52)) * 2 ^ (e + 1022).toNat, ?_⟩
  have : (2 : ℚ) ^ (e - 52) = 2 ^ (e + 1022).toNat * 2 ^ (-1074 : ℤ) := by
    rw [← zpow_natCast, ← zpow_add₀ (by norm_num : (2 : ℚ) ≠ 0)]
    congr 1
    rw [Int.toNat_of_nonneg (by omega)]; ring
  rw [this]; push_cast; ring

theorem toDouble_zero : toDouble 0 = JSNum.fin 0 := by simp [toDouble]

theorem toDouble_pos {q : ℚ} (hq : 0 < q) :
    toDouble q = if (2 : ℚ) ^ (1024 : ℕ) ≤ roundMag q then JSNum.posInf
      else JSNum.fin (roundMag q) := by
  simp only [toDouble, hq.ne', if_false, hq, if_true, abs_of_pos hq]

/-- Below a real that rounds to a finite number, a non-negative real rounds to a
finite number that is non-negative and not larger. -/
theorem toDouble_nonneg_mono {a b B : ℚ} (ha : 0 ≤ a) (hab : a ≤ b)
    (hb : toDouble b = JSNum.fin B) :
    ∃ A, toDouble a = JSNum.fin A ∧ 0 ≤ A ∧ A ≤ B := by
  have hB : 0 ≤ B ∧ (0 < b → B = roundMag b ∧ ¬ (2 : ℚ) ^ (1024 : ℕ) ≤ roundMag b) := by
    rcases eq_or_lt_of_le (le_trans ha hab) with h0 | hpos
    · rw [← h0, toDouble_zero] at hb
      cases hb
      exact ⟨le_rfl, fun h => absurd h0.symm h.ne'⟩
    · rw [toDouble_pos hpos] at hb
      split_ifs at hb with hov
      cases hb
      exact ⟨roundMag_nonneg b hpos, fun _ => ⟨rfl, hov⟩⟩
  rcases eq_or_lt_of_le ha with h0 | hpos
  · exact ⟨0, by rw [← h0, toDouble_zero], le_rfl, hB.1⟩
  · obtain ⟨e1, e2⟩ := hB.2 (lt_of_lt_of_le hpos hab)
    have hm := roundMag_mono hpos hab
    refine ⟨roundMag a, ?_, roundMag_nonneg a hpos, by rw [e1]; exact hm⟩
    rw [toDouble_pos hpos, if_neg]
    intro h
    exact e2 (le_trans h hm)

/-- Every finite rounded value is a whole multiple of the least subnormal
number. -/
theorem toDouble_grid {q m : ℚ} (h : toDouble q = JSNum.fin m) :
    ∃ k : ℤ, m = k * 2 ^ (-1074 : ℤ) := by
  unfold toDouble at h
  split_ifs at h with h0 h1 h2
  · cases h; exact ⟨0, by simp⟩
  · cases h; exact roundMag_grid _
  · cases h
    obtain ⟨k, hk⟩ := roundMag_grid |q|
    exact ⟨-k, by rw [hk]; push_cast; ring⟩

theorem toDouble_least : toDouble (2 ^ (-1074 : ℤ)) = JSNum.fin (2 ^ (-1074 : ℤ)) := by
  decide!

theorem toDouble_one : toDouble 1 = JSNum.fin 1 := by decide!

theorem toDouble_hundred : toDouble 100 = JSNum.fin 100 := by decide!

/-- The difference of two distinct binary64 values rounds to a positive number
or overflows. -/
theorem toDouble_sub_pos {p q lo hi w : ℚ} (hlo : toDouble p = JSNum.fin lo)
    (hhi : toDouble q = JSNum.fin hi) (hr : lo < hi) (hw : toDouble (hi - lo) = JSNum.fin w) :
    0 < w := by
  obtain ⟨k1, e1⟩ := toDouble_grid hlo
  obtain ⟨k2, e2⟩ := toDouble_grid hhi
  have hpos := two_zpow_pos (-1074)
  have hk : k1 < k2 := by
    by_contra hcon
    have : (k2 : ℚ) ≤ k1 := by exact_mod_cast not_lt.1 hcon
    have := mul_le_mul_of_nonneg_right this hpos.le
    rw [← e1, ← e2] at this
    linarith
  have hge : (2 : ℚ) ^ (-1074 : ℤ) ≤ hi - lo := by
    rw [e1, e2, ← sub_mul]
    have : (1 : ℚ) ≤ (k2 : ℚ) - k1 := by
      have : (1 : ℤ) ≤ k2 - k1 := by omega
      exact_mod_cast this
    calc (2 : ℚ) ^ (-1074 : ℤ) = 1 * 2 ^ (-1074 : ℤ) := by ring
      _ ≤ ((k2 : ℚ) - k1) * 2 ^ (-1074 : ℤ) := mul_le_mul_of_nonneg_right this hpos.le
  obtain ⟨A, hA, -, hAw⟩ := toDouble_nonneg_mono hpos.le hge hw
  rw [toDouble_least] at hA
  cases hA
  exact lt_of_lt_of_le hpos hAw

theorem plain_digitChar (k : ℕ) (hk : k < 10) : Plain (Nat.digitChar k) := by
  unfold Plain
  interval_cases k <;> decide

theorem plain_toDigitsCore (fuel : ℕ) : ∀ (n : ℕ) (acc : List Char),
    (∀ c ∈ acc, Plain c) → ∀ c ∈ Nat.toDigitsCore 10 fuel n acc, Plain c := by
  induction fuel with
  | zero => intro n acc h c hc; exact h c (by simpa [Nat.toDigitsCore] using hc)
  | succ fuel ih =>
    intro n acc h c hc
    have hacc : ∀ c ∈ Nat.digitChar (n % 10) :: acc, Plain c := by
      intro c hc
      rcases List.mem_cons.1 hc with rfl | hc
      · exact plain_digitChar _ (Nat.mod_lt _ (by decide))
      · exact h c hc
    simp only [Nat.toDigitsCore] at hc
    split at hc
    · exact hacc c hc
    · exact ih _ _ hacc c hc

theorem plain_decDigits (n : ℕ) : ∀ c ∈ decDigits n, Plain c :=
  plain_toDigitsCore _ _ _ (by simp)

theorem plain_take {l : List Char} (h : ∀ c ∈ l, Plain c) (n : ℕ) :
    ∀ c ∈ l.take n, Plain c := fun c hc => h c (List.mem_of_mem_take hc)

theorem plain_drop {l : List Char} (h : ∀ c ∈ l, Plain c) (n : ℕ) :
    ∀ c ∈ l.drop n, Plain c := fun c hc => h c (List.mem_of_mem_drop hc)

theorem plain_replicate {a : Char} (h : Plain a) (n : ℕ) :
    ∀ c ∈ List.replicate n a, Plain c := fun _ hc => (List.eq_of_mem_replicate hc) ▸ h

theorem plain_formatDigits (ds : List Char) (n : ℤ) (h : ∀ c ∈ ds, Plain c) :
    ∀ c ∈ formatDigits ds n, Plain c := by
  have hz : Plain '0' := by unfold Plain; decide
  have hp : Plain '.' := by unfold Plain; decide
  have he : Plain 'e' := by unfold Plain; decide
  have hm : Plain '-' := by unfold Plain; decide
  have hq : Plain '+' := by unfold Plain; decide
  have hs : Plain (if n - 1 < 0 then '-' else '+') := by split_ifs <;> assumption
  unfold formatDigits
  simp only
  split_ifs <;>
    simp only [List.forall_mem_append, List.forall_mem_cons] <;>
    and_intros <;>
    first
    | exact h
    | exact plain_take h _
    | exact plain_drop h _
    | exact plain_replicate hz _
    | exact plain_decDigits _
    | assumption
    | decide

theorem plain_positiveToString (x : ℚ) : ∀ c ∈ positiveToString x, Plain c :=
  plain_formatDigits _ _ (plain_decDigits _)

theorem plain_numberToString (q : ℚ) : ∀ c ∈ (numberToString (JSNum.fin q)).data, Plain c := by
  have hm : Plain '-' := by unfold Plain; decide
  simp only [numberToString]
  split_ifs
  · intro c hc
    have : c = '0' := by simpa using hc
    subst this; unfold Plain; decide
  · simp only [List.forall_mem_cons]
    exact ⟨hm, plain_positiveToString _⟩
  · exact plain_positiveToString _

theorem plain_padZeros (len : ℕ) (ds : List Char) (h : ∀ c ∈ ds, Plain c) :
    ∀ c ∈ padZeros len ds, Plain c := by
  have hz : Plain '0' := by unfold Plain; decide
  unfold padZeros
  simp only [List.forall_mem_append]
  exact ⟨plain_replicate hz _, h⟩

theorem plain_toFixed (q : ℚ) (f : ℕ) : ∀ c ∈ (toFixed (JSNum.fin q) f).data, Plain c := by
  have hm : Plain '-' := by unfold Plain; decide
  have hp : Plain '.' := by unfold Plain; decide
  have hs : ∀ c ∈ (if q < 0 then ['-'] else []), Plain c := by
    split_ifs <;> simp [hm]
  have hd := plain_padZeros (f + 1) _ (plain_decDigits ⌊|q| * 10 ^ f + 1 / 2⌋.toNat)
  unfold toFixed
  simp only
  split_ifs <;>
    simp only [List.forall_mem_append, List.forall_mem_cons] <;>
    and_intros <;>
    first
    | exact hs
    | exact hd
    | exact plain_numberToString _
    | exact plain_take hd _
    | exact plain_drop hd _
    | assumption
    | decide
    | (intro c hc; cases hc)

theorem toDigitsCore_acc (fuel : ℕ) : ∀ (n : ℕ) (acc : List Char),
    Nat.toDigitsCore 10 fuel n acc = Nat.toDigitsCore 10 fuel n [] ++ acc := by
  induction fuel with
  | zero => intro n acc; simp [Nat.toDigitsCore]
  | succ fuel ih =>
    intro n acc
    simp only [Nat.toDigitsCore]
    split_ifs
    · simp
    · rw [ih _ (_ :: acc), ih _ [_]]; simp

theorem toDigitsCore_fuel (f1 : ℕ) : ∀ (f2 n : ℕ), n < f1 → n < f2 →
    Nat.toDigitsCore 10 f1 n [] = Nat.toDigitsCore 10 f2 n [] := by
  induction f1 with
  | zero => intro f2 n h; omega
  | succ f1 ih =>
    intro f2 n h1 h2
    obtain ⟨f2, rfl⟩ : ∃ k, f2 = k + 1 := ⟨f2 - 1, by omega⟩
    simp only [Nat.toDigitsCore]
    split_ifs with h0
    · rfl
    · rw [toDigitsCore_acc f1, toDigitsCore_acc f2, ih f2 (n / 10) (by omega) (by omega)]

theorem decDigits_lt (n : ℕ) (h : n < 10) : decDigits n = [Nat.digitChar n] := by
  have h0 : n / 10 = 0 := by omega
  have h1 : n % 10 = n := by omega
  simp [decDigits, Nat.toDigits, Nat.toDigitsCore, h0, h1]

theorem decDigits_ge (n : ℕ) (h : 10 ≤ n) :
    decDigits n = decDigits (n / 10) ++ [Nat.digitChar (n % 10)] := by
  have h0 : ¬ n / 10 = 0 := by omega
  have h1 : decDigits n = Nat.toDigitsCore 10 n (n / 10) [Nat.digitChar (n % 10)] := by
    simp only [decDigits, Nat.toDigits, Nat.toDigitsCore, h0, if_false]
  rw [h1, toDigitsCore_acc, toDigitsCore_fuel n (n / 10 + 1) (n / 10) (by omega) (by omega)]
  rfl

theorem decDigits_ne_nil (n : ℕ) : decDigits n ≠ [] := by
  rcases Nat.lt_or_ge n 10 with h | h
  · rw [decDigits_lt n h]; simp
  · rw [decDigits_ge n h]; simp

/-- The digits of `n` padded to two places split before the last one. -/
theorem padZeros_two (n : ℕ) :
    padZeros 2 (decDigits n) =
      decDigits (n / 10) ++ [Nat.digitChar (n % 10)] := by
  rcases Nat.lt_or_ge n 10 with h | h
  · have h0 : n / 10 = 0 := by omega
    have h1 : n % 10 = n := by omega
    rw [decDigits_lt n h, h0, h1, decDigits_lt 0 (by decide)]
    rfl
  · have hne := decDigits_ne_nil (n / 10)
    have hl : 0 < (decDigits (n / 10)).length := List.length_pos.2 hne
    rw [decDigits_ge n h]
    simp only [padZeros, List.length_append, List.length_singleton]
    have : 2 - ((decDigits (n / 10)).length + 1) = 0 := by omega
    rw [this]; rfl

/-! ### Clamping and the two setters -/

theorem clamp_fin (n lo hi : ℚ) :
    clamp (JSNum.fin n) (JSNum.fin lo) (JSNum.fin hi) = JSNum.fin (min hi (max lo n)) := by
  simp only [clamp, JSNum.max, JSNum.min, min_def, max_def]

theorem setTempUI_nonfinite (d : Dom) (t : JSNum) (h : t.isFinite = false) :
    setTempUI d t =
      { d with outsideTemp := "--.-°C", indoorTemp := "--.-°C",
               tempSliderValue := JSNum.fin 0, tempFillWidth := "0%" } := by
  simp [setTempUI, h]

theorem setTempUI_fin (d : Dom) (t : ℚ) :
    setTempUI d (JSNum.fin t) =
      { d with outsideTemp := toFixed (JSNum.fin t) 1 ++ "°C"
               indoorTemp := toFixed (JSNum.fin t) 1 ++ "°C"
               tempSliderValue :=
                 clamp (JSNum.fin t) (stringToNumber d.tempSliderMin)
                   (stringToNumber d.tempSliderMax)
               tempFillWidth :=
                 numberToString (gaugePercent (JSNum.fin t) (stringToNumber d.tempSliderMin)
                   (stringToNumber d.tempSliderMax)) ++ "%" } := by
  simp [setTempUI, JSNum.isFinite, gaugePercent]

theorem setHumidityUI_nonfinite (d : Dom) (h : JSNum) (hh : h.isFinite = false) :
    setHumidityUI d h =
      { d with outsideHum := "--%", indoorHum := "--%",
               humSliderValue := JSNum.fin 0, humFillWidth := "0%" } := by
  simp [setHumidityUI, hh]

theorem setHumidityUI_fin (d : Dom) (h : ℚ) :
    setHumidityUI d (JSNum.fin h) =
      { d with outsideHum := numberToString (JSNum.fin (min 100 (max 0 (⌊h + 1 / 2⌋ : ℤ)))) ++ "%"
               indoorHum := numberToString (JSNum.fin (min 100 (max 0 (⌊h + 1 / 2⌋ : ℤ)))) ++ "%"
               humSliderValue := JSNum.fin (min 100 (max 0 (⌊h + 1 / 2⌋ : ℤ)))
               humFillWidth :=
                 numberToString (JSNum.fin (min 100 (max 0 (⌊h + 1 / 2⌋ : ℤ)))) ++ "%" } := by
  simp [setHumidityUI, JSNum.isFinite, JSNum.round, clamp_fin]

theorem isFinite_cases (x : JSNum) : x.isFinite = false ∨ ∃ q, x = JSNum.fin q := by
  cases x <;> simp [JSNum.isFinite]

/-- The integer a finite humidity is displayed as. -/
theorem hInt_nat (h : ℚ) :
    ∃ k : ℕ, k ≤ 100 ∧ (k : ℤ) = min 100 (max 0 ⌊h + 1 / 2⌋) ∧
      (min 100 (max 0 ((⌊h + 1 / 2⌋ : ℤ) : ℚ)) : ℚ) = (k : ℚ) := by
  refine ⟨(min 100 (max 0 ⌊h + 1 / 2⌋)).toNat, ?_, ?_, ?_⟩
  · have : min 100 (max 0 ⌊h + 1 / 2⌋) ≤ 100 := min_le_left _ _
    omega
  · have : 0 ≤ min 100 (max 0 ⌊h + 1 / 2⌋) := le_min (by norm_num) (le_max_left _ _)
    omega
  · have h0 : 0 ≤ min 100 (max 0 ⌊h + 1 / 2⌋) := le_min (by norm_num) (le_max_left _ _)
    have : ((min 100 (max 0 ⌊h + 1 / 2⌋)).toNat : ℤ) = min 100 (max 0 ⌊h + 1 / 2⌋) :=
      Int.toNat_of_nonneg h0
    have h2 : (((min 100 (max 0 ⌊h + 1 / 2⌋)).toNat : ℤ) : ℚ) =
        ((min 100 (max 0 ⌊h + 1 / 2⌋) : ℤ) : ℚ) := by rw [this]
    push_cast at h2
    exact h2.symm

/-- The string of a whole number up to 100 is its decimal numeral. -/
theorem numberToString_fin101 :
    ∀ n : Fin 101, numberToString (JSNum.fin (n.val : ℚ)) = String.mk (decDigits n.val) := by
  decide!

theorem numberToString_small (k : ℕ) (hk : k ≤ 100) :
    numberToString (JSNum.fin (k : ℚ)) = String.mk (decDigits k) :=
  numberToString_fin101 ⟨k, by omega⟩

/-! ### The gauge of the temperature -/

theorem toDouble_mono_fin {a b A B : ℚ} (ha : 0 ≤ a) (hab : a ≤ b)
    (hA : toDouble a = JSNum.fin A) (hB : toDouble b = JSNum.fin B) : 0 ≤ A ∧ A ≤ B := by
  obtain ⟨A', h1, h2, h3⟩ := toDouble_nonneg_mono ha hab hB
  rw [hA] at h1
  cases h1
  exact ⟨h2, h3⟩

/-- A finite result of `StringToNumber` is a rounded value. -/
theorem stringToNumber_double {s : String} {m : ℚ} (h : stringToNumber s = JSNum.fin m) :
    ∃ q, toDouble q = JSNum.fin m := by
  unfold stringToNumber at h
  generalize readNumeric _ = v at h
  rcases v with _ | ⟨_ | _⟩ | q
  · cases h
  · cases h
  · cases h
  · exact ⟨q, h⟩

theorem sub_fin (a b : ℚ) : JSNum.sub (JSNum.fin a) (JSNum.fin b) = toDouble (a - b) := rfl

theorem div_fin (a b : ℚ) (hb : b ≠ 0) :
    JSNum.div (JSNum.fin a) (JSNum.fin b) = toDouble (a / b) := by
  simp [JSNum.div, hb]

theorem mul_fin (a b : ℚ) : JSNum.mul (JSNum.fin a) (JSNum.fin b) = toDouble (a * b) := rfl

/-- The three rounded stages of the gauge percentage for a range whose width
rounds to the finite positive number `w`. -/
theorem gauge_stages (lo hi w t : ℚ) (hr : lo < hi) (hw : toDouble (hi - lo) = JSNum.fin w)
    (hwpos : 0 < w) :
    ∃ X Y Z : ℚ, toDouble (min hi (max lo t) - lo) = JSNum.fin X ∧ 0 ≤ X ∧ X ≤ w ∧
      toDouble (X / w) = JSNum.fin Y ∧ 0 ≤ Y ∧ Y ≤ 1 ∧
      toDouble (Y * 100) = JSNum.fin Z ∧ 0 ≤ Z ∧ Z ≤ 100 ∧
      gaugePercent (JSNum.fin t) (JSNum.fin lo) (JSNum.fin hi) = JSNum.fin Z := by
  have h1 : lo ≤ min hi (max lo t) := le_min hr.le (le_max_left _ _)
  have h2 : min hi (max lo t) ≤ hi := min_le_left _ _
  obtain ⟨X, hX, hX0, hXw⟩ :=
    toDouble_nonneg_mono (sub_nonneg.2 h1) (sub_le_sub_right h2 lo) hw
  obtain ⟨Y, hY, hY0, hY1⟩ :=
    toDouble_nonneg_mono (div_nonneg hX0 hwpos.le) ((div_le_one hwpos).2 hXw) toDouble_one
  obtain ⟨Z, hZ, hZ0, hZ1⟩ :=
    toDouble_nonneg_mono (mul_nonneg hY0 (by norm_num : (0 : ℚ) ≤ 100))
      (by linarith : Y * 100 ≤ 100) toDouble_hundred
  refine ⟨X, Y, Z, hX, hX0, hXw, hY, hY0, hY1, hZ, hZ0, hZ1, ?_⟩
  unfold gaugePercent
  rw [clamp_fin, sub_fin, sub_fin, hX, hw, div_fin _ _ hwpos.ne', hY, mul_fin, hZ]

theorem gauge_arith (lo hi w t : ℚ) (hr : lo < hi) (hw : toDouble (hi - lo) = JSNum.fin w)
    (hwpos : 0 < w) :
    ∃ p : ℚ, gaugePercent (JSNum.fin t) (JSNum.fin lo) (JSNum.fin hi) = JSNum.fin p ∧
      0 ≤ p ∧ p ≤ 100 ∧ (t ≤ lo → p = 0) ∧ (hi ≤ t → p = 100) ∧
      ∀ t' p' : ℚ, t ≤ t' →
        gaugePercent (JSNum.fin t') (JSNum.fin lo) (JSNum.fin hi) = JSNum.fin p' → p ≤ p' := by
  obtain ⟨X, Y, Z, hX, hX0, hXw, hY, hY0, hY1, hZ, hZ0, hZ1, hg⟩ :=
    gauge_stages lo hi w t hr hw hwpos
  refine ⟨Z, hg, hZ0, hZ1, ?_, ?_, ?_⟩
  · intro h
    rw [max_eq_left h, min_eq_right hr.le, sub_self, toDouble_zero] at hX
    cases hX
    rw [zero_div, toDouble_zero] at hY
    cases hY
    rw [zero_mul, toDouble_zero] at hZ
    cases hZ
    rfl
  · intro h
    rw [min_eq_left (le_trans h (le_max_right _ _)), hw] at hX
    cases hX
    rw [div_self hwpos.ne', toDouble_one] at hY
    cases hY
    rw [one_mul, toDouble_hundred] at hZ
    cases hZ
    rfl
  · intro t' p' htt hp'
    obtain ⟨X', Y', Z', hX', hX0', hXw', hY', hY0', hY1', hZ', hZ0', hZ1', hg'⟩ :=
      gauge_stages lo hi w t' hr hw hwpos
    rw [hg'] at hp'
    cases hp'
    have h1 : lo ≤ min hi (max lo t) := le_min hr.le (le_max_left _ _)
    have hc : min hi (max lo t) ≤ min hi (max lo t') :=
      min_le_min le_rfl (max_le_max le_rfl htt)
    have hXX := (toDouble_mono_fin (sub_nonneg.2 h1) (sub_le_sub_right hc lo) hX hX').2
    have hYY := (toDouble_mono_fin (div_nonneg hX0 hwpos.le)
      (div_le_div_of_nonneg_right hXX hwpos.le) hY hY').2
    exact (toDouble_mono_fin (mul_nonneg hY0 (by norm_num : (0 : ℚ) ≤ 100))
      (mul_le_mul_of_nonneg_right hYY (by norm_num)) hZ hZ').2

/-- C3, as stated, fails: on a slider with the range from -1e308 to 1e308 the
width `max - min` overflows to `Infinity`; at the temperature 1e308, which is
finite and equal to `max`, the percentage is `Infinity / Infinity`, and the
gauge width written is `NaN%`, not `100%`. -/
theorem wide_range_gauge_is_nan :
    stringToNumber widePage.tempSliderMin = toDouble (-(10 ^ 308)) ∧
    stringToNumber widePage.tempSliderMax = toDouble (10 ^ 308) ∧
    (toDouble (-(10 ^ 308))).isFinite = true ∧ (toDouble (10 ^ 308)).isFinite = true ∧
    JSNum.sub (toDouble (10 ^ 308)) (toDouble (-(10 ^ 308))) = JSNum.posInf ∧
    gaugePercent (toDouble (10 ^ 308)) (toDouble (-(10 ^ 308))) (toDouble (10 ^ 308)) =
      JSNum.nan ∧
    (setTempUI widePage (toDouble (10 ^ 308))).tempFillWidth = "NaN%" := by
  decide!

/-- C3, amended. For a slider range `lo < hi` whose width `hi - lo` does not
overflow in binary64, and a finite temperature `t`, `setTempUI` sets the slider
value to `clamp(t, lo, hi)` and the gauge width to the percentage
`((clamp(t, lo, hi) - lo) / (hi - lo)) * 100` of binary64 arithmetic followed by
`%`.  The percentage is a finite number between 0 and 100, is 0 for `t ≤ lo`,
is 100 for `hi ≤ t`, and does not decrease when `t` grows. -/
theorem setTempUI_gauge (d : Dom) (lo hi w : ℚ)
    (hlo : stringToNumber d.tempSliderMin = JSNum.fin lo)
    (hhi : stringToNumber d.tempSliderMax = JSNum.fin hi) (hr : lo < hi)
    (hw : JSNum.sub (JSNum.fin hi) (JSNum.fin lo) = JSNum.fin w) (t : ℚ) :
    (setTempUI d (JSNum.fin t)).tempSliderValue =
      clamp (JSNum.fin t) (JSNum.fin lo) (JSNum.fin hi) ∧
    (setTempUI d (JSNum.fin t)).tempSliderValue = JSNum.fin (min hi (max lo t)) ∧
    (setTempUI d (JSNum.fin t)).tempFillWidth =
      numberToString (gaugePercent (JSNum.fin t) (JSNum.fin lo) (JSNum.fin hi)) ++ "%" ∧
    ∃ p : ℚ, gaugePercent (JSNum.fin t) (JSNum.fin lo) (JSNum.fin hi) = JSNum.fin p ∧
      0 ≤ p ∧ p ≤ 100 ∧ (t ≤ lo → p = 0) ∧ (hi ≤ t → p = 100) ∧
      ∀ t' p' : ℚ, t ≤ t' →
        gaugePercent (JSNum.fin t') (JSNum.fin lo) (JSNum.fin hi) = JSNum.fin p' → p ≤ p' := by
  obtain ⟨q1, hq1⟩ := stringToNumber_double hlo
  obtain ⟨q2, hq2⟩ := stringToNumber_double hhi
  rw [sub_fin] at hw
  have hwpos := toDouble_sub_pos hq1 hq2 hr hw
  refine ⟨?_, ?_, ?_, gauge_arith lo hi w t hr hw hwpos⟩
  · rw [setTempUI_fin, hlo, hhi]
  · rw [setTempUI_fin, hlo, hhi, clamp_fin]
  · rw [setTempUI_fin, hlo, hhi]

/-- On the page with the range from -20 to 50, whose width is 70, a temperature of
60 saturates the gauge, and a temperature of 0 fills it to 28.57142857142857%. -/
theorem setTempUI_gauge_witness :
    stringToNumber samplePage.tempSliderMin = JSNum.fin (-20) ∧
    stringToNumber samplePage.tempSliderMax = JSNum.fin 50 ∧
    JSNum.sub (JSNum.fin 50) (JSNum.fin (-20)) = JSNum.fin 70 ∧
    (setTempUI samplePage (JSNum.fin 60)).tempSliderValue = JSNum.fin (min 50 (max (-20) 60)) ∧
    (∃ p : ℚ, gaugePercent (JSNum.fin 60) (JSNum.fin (-20)) (JSNum.fin 50) = JSNum.fin p ∧
      p = 100) ∧
    (setTempUI samplePage (JSNum.fin 60)).tempFillWidth = "100%" ∧
    (setTempUI samplePage (JSNum.fin 0)).tempFillWidth = "28.57142857142857%" := by
  obtain ⟨-, h2, -, p, hp, -, -, -, h100, -⟩ :=
    setTempUI_gauge samplePage (-20) 50 70 (by decide!) (by decide!) (by norm_num)
      (by decide!) 60
  exact ⟨by decide!, by decide!, by decide!, h2, ⟨p, hp, h100 (by norm_num)⟩, by decide!,
    by decide!⟩

/-! ### The texts of `updateWeatherUI` -/

/-- The document `updateWeatherUI` writes when both conversions return. -/
theorem updateWeatherUI_ok (d : Dom) (data : JSVal) (now : Moment) (x h : JSNum)
    (hx : (data.getProp "temp_c").toNumber now.stackRoom = Except.ok x)
    (hh : (data.getProp "humidity").toNumber now.stackRoom = Except.ok h) :
    updateWeatherUI d data now =
      Except.ok (updateClock (setHumidityUI (setTempUI d x) h) now) := by
  simp only [updateWeatherUI, hx, hh, Except.bind, Except.map]

/-- The function `updateWeatherUI` returns only when both conversions do. -/
theorem updateWeatherUI_returns (d : Dom) (data : JSVal) (now : Moment) (d1 : Dom)
    (h : updateWeatherUI d data now = Except.ok d1) :
    ∃ x h, (data.getProp "temp_c").toNumber now.stackRoom = Except.ok x ∧
      (data.getProp "humidity").toNumber now.stackRoom = Except.ok h ∧
      d1 = updateClock (setHumidityUI (setTempUI d x) h) now := by
  unfold updateWeatherUI at h
  rcases hx : (data.getProp "temp_c").toNumber now.stackRoom with e | x
  · rw [hx] at h; cases h
  · rcases hh : (data.getProp "humidity").toNumber now.stackRoom with e | y
    · rw [hx, hh] at h; cases h
    · rw [hx, hh] at h
      refine ⟨x, y, rfl, rfl, ?_⟩
      exact (Except.ok.inj h).symm

/-- The function `updateWeatherUI` throws when a conversion does. -/
theorem updateWeatherUI_throws (d : Dom) (data : JSVal) (now : Moment)
    (h : (∃ e, (data.getProp "temp_c").toNumber now.stackRoom = Except.error e) ∨
      (∃ e, (data.getProp "humidity").toNumber now.stackRoom = Except.error e)) :
    ∃ e, updateWeatherUI d data now = Except.error e := by
  unfold updateWeatherUI
  rcases hx : (data.getProp "temp_c").toNumber now.stackRoom with e | x
  · exact ⟨e, rfl⟩
  · rcases h with ⟨e, he⟩ | ⟨e, he⟩
    · rw [hx] at he; cases he
    · rw [he]; exact ⟨e, rfl⟩

theorem rendered_temp (d : Dom) (x h : JSNum) (now : Moment) :
    (updateClock (setHumidityUI (setTempUI d x) h) now).outsideTemp =
        (setTempUI d x).outsideTemp ∧
    (updateClock (setHumidityUI (setTempUI d x) h) now).indoorTemp =
        (setTempUI d x).indoorTemp ∧
    (updateClock (setHumidityUI (setTempUI d x) h) now).tempSliderValue =
        (setTempUI d x).tempSliderValue ∧
    (updateClock (setHumidityUI (setTempUI d x) h) now).tempFillWidth =
        (setTempUI d x).tempFillWidth := by
  simp only [updateClock]
  unfold setHumidityUI; split_ifs <;> simp

theorem rendered_hum (d : Dom) (x h : JSNum) (now : Moment) :
    (updateClock (setHumidityUI (setTempUI d x) h) now).outsideHum =
        (setHumidityUI d h).outsideHum ∧
    (updateClock (setHumidityUI (setTempUI d x) h) now).indoorHum =
        (setHumidityUI d h).indoorHum ∧
    (updateClock (setHumidityUI (setTempUI d x) h) now).humSliderValue =
        (setHumidityUI d h).humSliderValue ∧
    (updateClock (setHumidityUI (setTempUI d x) h) now).humFillWidth =
        (setHumidityUI d h).humFillWidth := by
  simp only [updateClock]
  unfold setHumidityUI; split_ifs <;> simp

theorem toFixed_one (q : ℚ) (h : |q| < 10 ^ 21) : toFixed (JSNum.fin q) 1 = oneDecimal q := by
  have h1 : ¬ (10 : ℚ) ^ (21 : ℕ) ≤ |q| := not_le.2 h
  have e : ∀ n : ℕ, padZeros (1 + 1) (decDigits n) =
      decDigits (n / 10) ++ [Nat.digitChar (n % 10)] := padZeros_two
  simp only [toFixed, h1, if_false, oneDecimal, pow_one, e]
  simp

theorem no_word_of_char {w t : List Char} (ht : ∀ c ∈ t, Plain c) (c : Char)
    (hc : c ∈ w) (hn : ¬ Plain c) : ¬ w <:+: t :=
  fun h => hn (ht c (h.subset hc))

/-- No text made of plain characters contains one of the three words. -/
theorem no_word_of_plain {t : List Char} (ht : ∀ c ∈ t, Plain c) :
    ∀ w ∈ ["NaN", "Infinity", "undefined"], ¬ w.data <:+: t := by
  intro w hw
  simp only [List.mem_cons, List.mem_singleton, List.not_mem_nil, or_false] at hw
  rcases hw with rfl | rfl | rfl
  · exact no_word_of_char ht 'N' (by decide) (by unfold Plain; decide)
  · exact no_word_of_char ht 'I' (by decide) (by unfold Plain; decide)
  · exact no_word_of_char ht 'u' (by decide) (by unfold Plain; decide)

theorem plain_tempText (d : Dom) (t : JSNum) :
    (∀ c ∈ (setTempUI d t).outsideTemp.data, Plain c) ∧
    (∀ c ∈ (setTempUI d t).indoorTemp.data, Plain c) := by
  have hu : ∀ c ∈ "°C".data, Plain c := by unfold Plain; decide
  have hp : ∀ c ∈ "--.-°C".data, Plain c := by unfold Plain; decide
  rcases isFinite_cases t with h | ⟨q, rfl⟩
  · rw [setTempUI_nonfinite d t h]; exact ⟨hp, hp⟩
  · rw [setTempUI_fin]
    simp only [String.data_append, List.forall_mem_append]
    exact ⟨⟨plain_toFixed q 1, hu⟩, ⟨plain_toFixed q 1, hu⟩⟩

theorem plain_humText (d : Dom) (h : JSNum) :
    (∀ c ∈ (setHumidityUI d h).outsideHum.data, Plain c) ∧
    (∀ c ∈ (setHumidityUI d h).indoorHum.data, Plain c) := by
  have hu : ∀ c ∈ "%".data, Plain c := by unfold Plain; decide
  have hp : ∀ c ∈ "--%".data, Plain c := by unfold Plain; decide
  rcases isFinite_cases h with hh | ⟨q, rfl⟩
  · rw [setHumidityUI_nonfinite d h hh]; exact ⟨hp, hp⟩
  · rw [setHumidityUI_fin]
    simp only [String.data_append, List.forall_mem_append]
    exact ⟨⟨plain_numberToString _, hu⟩, ⟨plain_numberToString _, hu⟩⟩

theorem lookup_absent (key : String) (fields : List (String × JSVal))
    (h : ∀ p ∈ fields, p.1 ≠ key) : JSVal.lookup key fields = JSVal.undefined := by
  induction fields with
  | nil => rfl
  | cons p rest ih =>
    obtain ⟨k, v⟩ := p
    have hk : k ≠ key := h (k, v) (List.mem_cons_self _ _)
    simp only [JSVal.lookup, hk, if_false]
    exact ih (fun p hp => h p (List.mem_cons_of_mem _ hp))

theorem stringToNumber_na : stringToNumber "n/a" = JSNum.nan := by decide!

/-- C1, as stated, fails: the payload `{humidity: {toString: 1}}` has no `temp_c`,
but `Number` throws a `TypeError` on its `humidity` before anything is written,
so on a page that shows `21.5°C` the temperature texts stay `21.5°C`, both after
the call itself and after the message that delivers the payload. -/
theorem throwing_payload_keeps_text :
    badReading.getProp "temp_c" = JSVal.undefined ∧
    (badReading.getProp "temp_c").toNumber sampleMoment.stackRoom = Except.ok JSNum.nan ∧
    updateWeatherUI shownPage badReading sampleMoment = Except.error "TypeError" ∧
    shownPage.outsideTemp = "21.5°C" ∧ shownPage.indoorTemp = "21.5°C" ∧
    (run (boot shownPage sampleLocation sampleMoment)
      [Event.socketOpen 0, Event.socketMessage 0 (Except.ok badReading) sampleMoment]
      ).dom.outsideTemp = "21.5°C" ∧
    (run (boot shownPage sampleLocation sampleMoment)
      [Event.socketOpen 0, Event.socketMessage 0 (Except.ok badReading) sampleMoment]
      ).dom.indoorTemp = "21.5°C" :=
  ⟨rfl, rfl, rfl, rfl, rfl, by decide!, by decide!⟩

/-- C1, amended. When both conversions `Number(data?.temp_c)` and
`Number(data?.humidity)` return, `updateWeatherUI` returns, and for a `temp_c`
(respectively `humidity`) that does not convert to a finite number both
temperature texts are `--.-°C` (respectively both humidity texts are `--%`).
Whenever `updateWeatherUI` returns, none of the four texts contains `NaN`,
`Infinity` or `undefined`.  When a conversion throws, `updateWeatherUI` throws
and writes no document.  A `null` or `undefined` payload, an object without the
key, and a field that is `undefined`, `NaN`, an infinity or a non-numeric string
convert, without throwing, to a number that is not finite, and the conversion
of a primitive value never throws. -/
theorem updateWeatherUI_placeholder (d : Dom) (data : JSVal) (now : Moment) :
    (∀ x h, (data.getProp "temp_c").toNumber now.stackRoom = Except.ok x →
      (data.getProp "humidity").toNumber now.stackRoom = Except.ok h →
      ∃ d1, updateWeatherUI d data now = Except.ok d1 ∧
        (x.isFinite = false → d1.outsideTemp = "--.-°C" ∧ d1.indoorTemp = "--.-°C") ∧
        (h.isFinite = false → d1.outsideHum = "--%" ∧ d1.indoorHum = "--%")) ∧
    (∀ d1, updateWeatherUI d data now = Except.ok d1 →
      ∀ text ∈ [d1.outsideTemp, d1.indoorTemp, d1.outsideHum, d1.indoorHum],
        ∀ w ∈ ["NaN", "Infinity", "undefined"], ¬ w.data <:+: text.data) ∧
    (((∃ e, (data.getProp "temp_c").toNumber now.stackRoom = Except.error e) ∨
        (∃ e, (data.getProp "humidity").toNumber now.stackRoom = Except.error e)) →
      ∃ e, updateWeatherUI d data now = Except.error e) ∧
    (∀ (key : String) (room : ℕ),
      (JSVal.null.getProp key).toNumber room = Except.ok JSNum.nan ∧
      (JSVal.undefined.getProp key).toNumber room = Except.ok JSNum.nan ∧
      ∀ fields : List (String × JSVal), (∀ p ∈ fields, p.1 ≠ key) →
        ((JSVal.obj fields).getProp key).toNumber room = Except.ok JSNum.nan) ∧
    (∀ (room : ℕ) (v : JSVal), v.isPrimitive = true → ∃ x, v.toNumber room = Except.ok x) ∧
    (∀ room : ℕ, ∀ v ∈ [JSVal.undefined, JSVal.num JSNum.nan, JSVal.num JSNum.posInf,
        JSVal.num JSNum.negInf, JSVal.str "n/a"],
      ∃ x, v.toNumber room = Except.ok x ∧ x.isFinite = false) := by
  refine ⟨?_, ?_, updateWeatherUI_throws d data now, ?_, ?_, ?_⟩
  · intro x h hx hh
    refine ⟨_, updateWeatherUI_ok d data now x h hx hh, ?_, ?_⟩
    · intro hf
      rw [(rendered_temp d x h now).1, (rendered_temp d x h now).2.1,
        setTempUI_nonfinite d x hf]
      exact ⟨rfl, rfl⟩
    · intro hf
      rw [(rendered_hum d x h now).1, (rendered_hum d x h now).2.1,
        setHumidityUI_nonfinite d h hf]
      exact ⟨rfl, rfl⟩
  · intro d1 hd text ht
    obtain ⟨x, h, -, -, rfl⟩ := updateWeatherUI_returns d data now d1 hd
    simp only [List.mem_cons, List.mem_singleton, List.not_mem_nil, or_false] at ht
    rcases ht with rfl | rfl | rfl | rfl
    · rw [(rendered_temp d x h now).1]; exact no_word_of_plain (plain_tempText d _).1
    · rw [(rendered_temp d x h now).2.1]; exact no_word_of_plain (plain_tempText d _).2
    · rw [(rendered_hum d x h now).1]; exact no_word_of_plain (plain_humText d _).1
    · rw [(rendered_hum d x h now).2.1]; exact no_word_of_plain (plain_humText d _).2
  · intro key room
    refine ⟨rfl, rfl, ?_⟩
    intro fields hf
    simp only [JSVal.getProp, lookup_absent key fields hf]
    rfl
  · intro room v hv
    rcases v with _ | _ | _ | _ | _ | _ | _
    · exact ⟨_, rfl⟩
    · exact ⟨_, rfl⟩
    · rename_i b; cases b <;> exact ⟨_, rfl⟩
    · exact ⟨_, rfl⟩
    · exact ⟨_, rfl⟩
    · cases hv
    · cases hv
  · intro room v hv
    simp only [List.mem_cons, List.mem_singleton, List.not_mem_nil, or_false] at hv
    rcases hv with rfl | rfl | rfl | rfl | rfl
    · exact ⟨_, rfl, rfl⟩
    · exact ⟨_, rfl, rfl⟩
    · exact ⟨_, rfl, rfl⟩
    · exact ⟨_, rfl, rfl⟩
    · refine ⟨_, rfl, ?_⟩
      rw [stringToNumber_na]; rfl

/-- A `null` payload renders the placeholders. -/
theorem updateWeatherUI_placeholder_witness :
    (JSVal.null.getProp "temp_c").toNumber sampleMoment.stackRoom = Except.ok JSNum.nan ∧
    (JSVal.null.getProp "humidity").toNumber sampleMoment.stackRoom = Except.ok JSNum.nan ∧
    ∃ d1, updateWeatherUI samplePage JSVal.null sampleMoment = Except.ok d1 ∧
      d1.outsideTemp = "--.-°C" ∧ d1.outsideHum = "--%" := by
  obtain ⟨d1, h1, h2, h3⟩ :=
    (updateWeatherUI_placeholder samplePage JSVal.null sampleMoment).1 _ _ rfl rfl
  exact ⟨rfl, rfl, d1, h1, (h2 rfl).1, (h3 rfl).1⟩

/-- C2. On the payload `{t: 1000, temp_c: null, humidity: null}` the page shows
a reading of zero and not the placeholders: `Number(null)` is `0`, which is
finite, so both setters take their numeric branch.  With the slider range from
-20 to 50 the temperature gauge is filled to 28.57142857142857 percent. -/
theorem nullReading_rendered_as_zero :
    ∃ d1, updateWeatherUI samplePage nullReading sampleMoment = Except.ok d1 ∧
      d1.outsideTemp = "0.0°C" ∧ d1.indoorTemp = "0.0°C" ∧
      d1.outsideHum = "0%" ∧ d1.indoorHum = "0%" ∧
      d1.tempSliderValue = JSNum.fin 0 ∧ d1.tempFillWidth = "28.57142857142857%" ∧
      d1.humSliderValue = JSNum.fin 0 ∧ d1.humFillWidth = "0%" :=
  ⟨_, rfl, by decide!, by decide!, by decide!, by decide!, by decide!, by decide!, by decide!,
    by decide!⟩

/-- The display of a finite humidity. -/
theorem setHumidityUI_fin_nat (d : Dom) (h : ℚ) :
    ∃ k : ℕ, k ≤ 100 ∧ (k : ℤ) = min 100 (max 0 ⌊h + 1 / 2⌋) ∧
      (min 100 (max 0 ((⌊h + 1 / 2⌋ : ℤ) : ℚ)) : ℚ) = (k : ℚ) ∧
      (setHumidityUI d (JSNum.fin h)).outsideHum = String.mk (decDigits k) ++ "%" ∧
      (setHumidityUI d (JSNum.fin h)).indoorHum = String.mk (decDigits k) ++ "%" ∧
      (setHumidityUI d (JSNum.fin h)).humSliderValue = JSNum.fin k ∧
      (setHumidityUI d (JSNum.fin h)).humFillWidth = String.mk (decDigits k) ++ "%" := by
  obtain ⟨k, hk, hkz, hkq⟩ := hInt_nat h
  refine ⟨k, hk, hkz, hkq, ?_, ?_, ?_, ?_⟩
  · rw [setHumidityUI_fin, hkq, numberToString_small k hk]
  · rw [setHumidityUI_fin, hkq, numberToString_small k hk]
  · rw [setHumidityUI_fin, hkq]
  · rw [setHumidityUI_fin, hkq, numberToString_small k hk]

/-- C4. For a finite humidity `h`, `setHumidityUI` displays the whole number
`k = clamp(round(h), 0, 100)`, where `round(h)` is the integer `r` with
`r - 1/2 ≤ h < r + 1/2`: `k` lies between 0 and 100, is 0 for `h < 1/2` and 100
for `h ≥ 99.5`, both humidity texts are the numeral of `k` followed by `%`, the
slider value is `k` and the gauge width is the numeral of `k` followed by `%`. -/
theorem setHumidityUI_display (d : Dom) (h : ℚ) :
    ∃ k : ℕ, k ≤ 100 ∧
      clamp (JSNum.round (JSNum.fin h)) (JSNum.fin 0) (JSNum.fin 100) = JSNum.fin k ∧
      (k : ℤ) = min 100 (max 0 ⌊h + 1 / 2⌋) ∧
      ((⌊h + 1 / 2⌋ : ℚ) - 1 / 2 ≤ h ∧ h < (⌊h + 1 / 2⌋ : ℚ) + 1 / 2) ∧
      (h < 1 / 2 → k = 0) ∧
      (199 / 2 ≤ h → k = 100) ∧
      (setHumidityUI d (JSNum.fin h)).outsideHum = String.mk (decDigits k) ++ "%" ∧
      (setHumidityUI d (JSNum.fin h)).indoorHum = String.mk (decDigits k) ++ "%" ∧
      (setHumidityUI d (JSNum.fin h)).humSliderValue = JSNum.fin k ∧
      (setHumidityUI d (JSNum.fin h)).humFillWidth = String.mk (decDigits k) ++ "%" := by
  obtain ⟨k, hk, hkz, hkq, e1, e2, e3, e4⟩ := setHumidityUI_fin_nat d h
  refine ⟨k, hk, ?_, hkz, ⟨?_, ?_⟩, ?_, ?_, e1, e2, e3, e4⟩
  · simp only [JSNum.round, clamp_fin]; rw [hkq]
  · have := Int.floor_le (h + 1 / 2); linarith
  · have := Int.lt_floor_add_one (h + 1 / 2); linarith
  · intro hlt
    have : ⌊h + 1 / 2⌋ ≤ 0 := by
      have : ⌊h + 1 / 2⌋ < 1 := Int.floor_lt.2 (by push_cast; linarith)
      omega
    rw [max_eq_left this] at hkz
    have : min (100 : ℤ) 0 = 0 := by decide
    omega
  · intro hge
    have : (100 : ℤ) ≤ ⌊h + 1 / 2⌋ := Int.le_floor.2 (by push_cast; linarith)
    rw [min_eq_left (le_trans this (le_max_right _ _))] at hkz
    omega

/-- A humidity of 0.2 is displayed as 0. -/
theorem setHumidityUI_display_witness :
    ∃ k : ℕ, k = 0 ∧ (setHumidityUI samplePage (JSNum.fin (1 / 5))).humSliderValue = JSNum.fin k := by
  obtain ⟨k, -, -, -, -, h0, -, -, -, hv, -⟩ := setHumidityUI_display samplePage (1 / 5)
  exact ⟨k, h0 (by norm_num), hv⟩

/-- C5, as stated, fails: the payload `{t: 1000, temp_c: 1e21, humidity: 47}`
renders the temperature as `1e+21°C`, which has no decimal place at all. -/
theorem hugeReading_not_one_decimal :
    ∃ d1, updateWeatherUI samplePage hugeReading sampleMoment = Except.ok d1 ∧
      d1.outsideTemp = "1e+21°C" ∧ d1.indoorTemp = "1e+21°C" ∧
      '.' ∉ d1.outsideTemp.data ∧ d1.outsideTemp ≠ oneDecimal (10 ^ 21) ++ "°C" :=
  ⟨_, rfl, by decide!, by decide!, by decide!, by decide!⟩

theorem oneDecimal_sample : oneDecimal (43 / 2) = "21.5" := by decide!

theorem decDigits_sample : String.mk (decDigits 47) = "47" := by decide!

/-- C5, amended. For every payload whose `temp_c` is a finite number `t` with
`|t| < 10^21` and whose `humidity` is a finite number `h`, `updateWeatherUI`
returns and renders both temperature texts as the unclamped `t` with exactly one
decimal place followed by `°C`, and both humidity texts as the numeral of
`clamp(round(h), 0, 100)` followed by `%`.  The payload
`{t: 1000, temp_c: 21.5, humidity: 47}` renders `21.5°C` and `47%`. -/
theorem updateWeatherUI_finite (d : Dom) (data : JSVal) (now : Moment) (t h : ℚ)
    (ht : data.getProp "temp_c" = JSVal.num (JSNum.fin t))
    (hh : data.getProp "humidity" = JSVal.num (JSNum.fin h))
    (hlt : |t| < 10 ^ 21) :
    (∃ d1, updateWeatherUI d data now = Except.ok d1 ∧
      d1.outsideTemp = oneDecimal t ++ "°C" ∧
      d1.indoorTemp = oneDecimal t ++ "°C" ∧
      d1.outsideHum = String.mk (decDigits (min 100 (max 0 ⌊h + 1 / 2⌋)).toNat) ++ "%" ∧
      d1.indoorHum = String.mk (decDigits (min 100 (max 0 ⌊h + 1 / 2⌋)).toNat) ++ "%") ∧
    ∃ d2, updateWeatherUI d sampleReading now = Except.ok d2 ∧
      d2.outsideTemp = "21.5°C" ∧ d2.indoorTemp = "21.5°C" ∧
      d2.outsideHum = "47%" ∧ d2.indoorHum = "47%" := by
  have key : ∀ (data : JSVal) (t h : ℚ), data.getProp "temp_c" = JSVal.num (JSNum.fin t) →
      data.getProp "humidity" = JSVal.num (JSNum.fin h) → |t| < 10 ^ 21 →
      ∃ d1, updateWeatherUI d data now = Except.ok d1 ∧
        d1.outsideTemp = oneDecimal t ++ "°C" ∧
        d1.indoorTemp = oneDecimal t ++ "°C" ∧
        d1.outsideHum = String.mk (decDigits (min 100 (max 0 ⌊h + 1 / 2⌋)).toNat) ++ "%" ∧
        d1.indoorHum =
          String.mk (decDigits (min 100 (max 0 ⌊h + 1 / 2⌋)).toNat) ++ "%" := by
    intro data t h ht hh hlt
    have hx : (data.getProp "temp_c").toNumber now.stackRoom = Except.ok (JSNum.fin t) := by
      rw [ht]; rfl
    have hy : (data.getProp "humidity").toNumber now.stackRoom = Except.ok (JSNum.fin h) := by
      rw [hh]; rfl
    obtain ⟨k, hk, hkz, -, e1, e2, -, -⟩ := setHumidityUI_fin_nat d h
    have hkn : (min 100 (max 0 ⌊h + 1 / 2⌋)).toNat = k := by
      rw [← hkz]; exact Int.toNat_natCast k
    refine ⟨_, updateWeatherUI_ok d data now _ _ hx hy, ?_, ?_, ?_, ?_⟩
    · rw [(rendered_temp d _ _ now).1, setTempUI_fin, toFixed_one t hlt]
    · rw [(rendered_temp d _ _ now).2.1, setTempUI_fin, toFixed_one t hlt]
    · rw [(rendered_hum d _ _ now).1, e1, hkn]
    · rw [(rendered_hum d _ _ now).2.1, e2, hkn]
  refine ⟨key data t h ht hh hlt, ?_⟩
  obtain ⟨d2, hd, s1, s2, s3, s4⟩ := key sampleReading (43 / 2) 47 rfl rfl (by norm_num [abs_lt])
  have e47 : (min 100 (max 0 ⌊(47 : ℚ) + 1 / 2⌋)).toNat = 47 := by
    have : ⌊(47 : ℚ) + 1 / 2⌋ = 47 := by
      rw [Int.floor_eq_iff]; norm_num
    rw [this]; decide
  rw [oneDecimal_sample] at s1 s2
  rw [e47, decDigits_sample] at s3 s4
  exact ⟨d2, hd, s1, s2, s3, s4⟩

/-- The sample payload renders `21.5°C` and `47%`. -/
theorem updateWeatherUI_finite_witness :
    ∃ d1, updateWeatherUI samplePage sampleReading sampleMoment = Except.ok d1 ∧
      d1.outsideTemp = oneDecimal (43 / 2) ++ "°C" ∧ d1.outsideTemp = "21.5°C" ∧
      d1.outsideHum = "47%" := by
  obtain ⟨⟨d1, h1, h2, -, -, -⟩, d2, g1, g2, -, g3, -⟩ :=
    updateWeatherUI_finite samplePage sampleReading sampleMoment (43 / 2) 47 rfl rfl
      (by norm_num [abs_lt])
  rw [h1] at g1
  cases g1
  exact ⟨d1, h1, h2, g2, g3⟩

/-! ### The handlers change the document only -/

/-- The handler `ws.onmessage` returns, and changes at most the document. -/
theorem onMessage_eq (s : State) (parsed : Except String JSVal) (now : Moment) :
    ∃ d, onMessage s parsed now = Except.ok { s with dom := d } := by
  unfold onMessage
  rcases parsed with e | data
  · exact ⟨s.dom, rfl⟩
  · simp only [Except.bind]
    rcases updateWeatherUI s.dom data now with e | d
    · exact ⟨s.dom, rfl⟩
    · exact ⟨d, rfl⟩

/-- The rest of `pollOnce` changes at most the document. -/
theorem pollOnceResume_eq (s : State) (r : FetchResult) (now : Moment) :
    ∃ d, pollOnceResume s r now = { s with dom := d } := by
  unfold pollOnceResume
  rcases r with _ | ⟨st, _ | j⟩
  · exact ⟨_, rfl⟩
  · exact ⟨_, rfl⟩
  · simp only
    rcases updateWeatherUI s.dom j now with e | d
    · exact ⟨_, rfl⟩
    · exact ⟨_, rfl⟩

/-! ### The timer invariant -/

theorem Inv.congr {s s' : State} (h : Inv s) (h1 : s'.nextTimerId = s.nextTimerId)
    (h2 : s'.timers = s.timers) (h3 : s'.pollTimer = s.pollTimer)
    (h4 : s'.retryTimer = s.retryTimer) (h5 : s'.sockets = s.sockets) : Inv s' := by
  unfold Inv at *
  rw [h1, h2, h3, h4, h5]
  exact h

theorem truthy_some {id : ℕ} (h : 1 ≤ id) : truthy (some id) = true := by
  obtain ⟨k, rfl⟩ : ∃ k, id = k + 1 := ⟨id - 1, by omega⟩
  rfl

theorem truthy_iff (o : Option ℕ) : truthy o = true ↔ ∃ id, o = some id ∧ 1 ≤ id := by
  rcases o with _ | _ | k
  · simp [truthy]
  · simp [truthy]
  · simp [truthy]

theorem Inv.pollTimer_truthy {s : State} (h : Inv s) {id : ℕ} (hp : s.pollTimer = some id) :
    truthy s.pollTimer = true := by
  obtain ⟨t, ht, rfl, -⟩ := h.2.2.2.2.2.1 id hp
  rw [hp]; exact truthy_some (h.2.1 t ht).1

theorem Inv.retryTimer_truthy {s : State} (h : Inv s) {id : ℕ} (hp : s.retryTimer = some id) :
    truthy s.retryTimer = true := by
  obtain ⟨t, ht, rfl, -⟩ := h.2.2.2.2.2.2.1 id hp
  rw [hp]; exact truthy_some (h.2.1 t ht).1

theorem Inv.no_poll_of_not_truthy {s : State} (h : Inv s) (hp : truthy s.pollTimer = false) :
    ∀ t ∈ s.timers, t.callback ≠ Callback.pollOnce := by
  intro t ht hc
  have := h.pollTimer_truthy (h.2.2.2.1 t ht hc).1
  rw [hp] at this; cases this

theorem Inv.no_retry_of_not_truthy {s : State} (h : Inv s) (hp : truthy s.retryTimer = false) :
    ∀ t ∈ s.timers, t.callback ≠ Callback.retry := by
  intro t ht hc
  have := h.retryTimer_truthy (h.2.2.2.2.1 t ht hc).1
  rw [hp] at this; cases this

/-- A new timer for the polling loop, recorded in `pollTimer`, when none is
recorded. -/
theorem Inv.addPoll {s : State} (h : Inv s) (hp : truthy s.pollTimer = false) :
    Inv { (setInterval s Callback.pollOnce 2000).1 with
      pollTimer := some (setInterval s Callback.pollOnce 2000).2 } := by
  have hno := h.no_poll_of_not_truthy hp
  obtain ⟨h1, h2, h3, h4, h5, h6, h7, h8⟩ := h
  refine ⟨?_, ?_, ?_, ?_, ?_, ?_, ?_, h8⟩
  · show 1 ≤ s.nextTimerId + 1
    omega
  · intro t ht
    show 1 ≤ t.id ∧ t.id < s.nextTimerId + 1
    rcases List.mem_append.1 ht with ht | ht
    · have := h2 t ht; omega
    · rw [List.mem_singleton.1 ht]; exact ⟨h1, Nat.lt_succ_self _⟩
  · show ((s.timers ++ [(⟨s.nextTimerId, Callback.pollOnce, 2000⟩ : Timer)]).map Timer.id).Nodup
    rw [List.map_append, List.nodup_append]
    refine ⟨h3, List.nodup_singleton _, ?_⟩
    intro a ha hb
    obtain ⟨t, ht, rfl⟩ := List.mem_map.1 ha
    have : t.id = s.nextTimerId := by simpa using hb
    have := (h2 t ht).2
    omega
  · intro t ht hc
    rcases List.mem_append.1 ht with ht | ht
    · exact absurd hc (hno t ht)
    · rw [List.mem_singleton.1 ht]; exact ⟨rfl, rfl⟩
  · intro t ht hc
    rcases List.mem_append.1 ht with ht | ht
    · exact h5 t ht hc
    · rw [List.mem_singleton.1 ht] at hc; cases hc
  · intro id hid
    have : s.nextTimerId = id := Option.some.inj hid
    exact ⟨⟨s.nextTimerId, Callback.pollOnce, 2000⟩,
      List.mem_append.2 (Or.inr (List.mem_singleton.2 rfl)), this, rfl⟩
  · intro id hid
    obtain ⟨t, ht, e1, e2⟩ := h7 id hid
    exact ⟨t, List.mem_append.2 (Or.inl ht), e1, e2⟩

/-- A new timer for the reconnect loop, recorded in `retryTimer`, when none is
recorded. -/
theorem Inv.addRetry {s : State} (h : Inv s) (hp : truthy s.retryTimer = false) :
    Inv { (setInterval s Callback.retry 5000).1 with
      retryTimer := some (setInterval s Callback.retry 5000).2 } := by
  have hno := h.no_retry_of_not_truthy hp
  obtain ⟨h1, h2, h3, h4, h5, h6, h7, h8⟩ := h
  refine ⟨?_, ?_, ?_, ?_, ?_, ?_, ?_, h8⟩
  · show 1 ≤ s.nextTimerId + 1
    omega
  · intro t ht
    show 1 ≤ t.id ∧ t.id < s.nextTimerId + 1
    rcases List.mem_append.1 ht with ht | ht
    · have := h2 t ht; omega
    · rw [List.mem_singleton.1 ht]; exact ⟨h1, Nat.lt_succ_self _⟩
  · show ((s.timers ++ [(⟨s.nextTimerId, Callback.retry, 5000⟩ : Timer)]).map Timer.id).Nodup
    rw [List.map_append, List.nodup_append]
    refine ⟨h3, List.nodup_singleton _, ?_⟩
    intro a ha hb
    obtain ⟨t, ht, rfl⟩ := List.mem_map.1 ha
    have : t.id = s.nextTimerId := by simpa using hb
    have := (h2 t ht).2
    omega
  · intro t ht hc
    rcases List.mem_append.1 ht with ht | ht
    · exact h4 t ht hc
    · rw [List.mem_singleton.1 ht] at hc; cases hc
  · intro t ht hc
    rcases List.mem_append.1 ht with ht | ht
    · exact absurd hc (hno t ht)
    · rw [List.mem_singleton.1 ht]; exact ⟨rfl, rfl⟩
  · intro id hid
    obtain ⟨t, ht, e1, e2⟩ := h6 id hid
    exact ⟨t, List.mem_append.2 (Or.inl ht), e1, e2⟩
  · intro id hid
    have : s.nextTimerId = id := Option.some.inj hid
    exact ⟨⟨s.nextTimerId, Callback.retry, 5000⟩,
      List.mem_append.2 (Or.inr (List.mem_singleton.2 rfl)), this, rfl⟩

theorem Inv.startPolling {s : State} (h : Inv s) : Inv (startPolling s 2000) := by
  unfold WeatherMonitor.startPolling
  split_ifs with hp
  · exact h
  · exact (h.addPoll (by simpa using hp)).congr rfl rfl rfl rfl rfl

theorem Inv.stopPolling {s : State} (h : Inv s) : Inv (stopPolling s) := by
  unfold WeatherMonitor.stopPolling
  split_ifs with hp
  · split
    · rename_i id hid
      obtain ⟨h1, h2, h3, h4, h5, h6, h7, h8⟩ := h
      have hsub : ∀ t ∈ s.timers.filter (fun t => t.id ≠ id), t ∈ s.timers ∧ t.id ≠ id := by
        intro t ht
        have := List.mem_filter.1 ht
        exact ⟨this.1, by simpa using this.2⟩
      refine ⟨h1, ?_, ?_, ?_, ?_, ?_, ?_, h8⟩
      · intro t ht; exact h2 t (hsub t ht).1
      · exact h3.sublist ((List.filter_sublist _).map _)
      · intro t ht hc
        have := (h4 t (hsub t ht).1 hc).1
        rw [hid] at this
        exact absurd (Option.some.inj this).symm (hsub t ht).2
      · intro t ht hc; exact h5 t (hsub t ht).1 hc
      · intro id' hid'; cases hid'
      · intro rid hrid
        obtain ⟨t, ht, e1, e2⟩ := h7 rid hrid
        obtain ⟨tp, htp, p1, p2⟩ := h6 id hid
        refine ⟨t, List.mem_filter.2 ⟨ht, ?_⟩, e1, e2⟩
        have hne : t.id ≠ id := by
          intro heq
          have : t = tp := List.inj_on_of_nodup_map h3 ht htp (heq.trans p1.symm)
          rw [this, p2] at e2
          cases e2
        simpa using hne
    · exact h
  · exact h

theorem Inv.setReadyState {s : State} (h : Inv s) (i : ℕ) (r : ReadyState) :
    Inv (setReadyState s i r) := by
  obtain ⟨h1, h2, h3, h4, h5, h6, h7, h8⟩ := h
  refine ⟨h1, h2, h3, h4, h5, h6, h7, ?_⟩
  show ∀ w ∈ s.sockets.modify (fun w => { w with readyState := r }) i, _
  generalize s.sockets = l at h8
  induction l generalizing i with
  | nil => intro w hw; simp at hw
  | cons a l ih =>
    cases i with
    | zero =>
      intro w hw
      rw [List.modify_zero_cons] at hw
      rcases List.mem_cons.1 hw with rfl | hw
      · exact h8 a (List.mem_cons_self _ _)
      · exact h8 w (List.mem_cons_of_mem _ hw)
    | succ i =>
      intro w hw
      rw [List.modify_succ_cons] at hw
      rcases List.mem_cons.1 hw with rfl | hw
      · exact h8 _ (List.mem_cons_self _ _)
      · exact ih i (fun w hw => h8 w (List.mem_cons_of_mem _ hw)) w hw

theorem connectWS_fields (s : State) :
    (connectWS s).nextTimerId = s.nextTimerId ∧ (connectWS s).timers = s.timers ∧
    (connectWS s).pollTimer = s.pollTimer ∧ (connectWS s).retryTimer = s.retryTimer ∧
    (connectWS s).dom = s.dom ∧ (connectWS s).fetchesIssued = s.fetchesIssued ∧
    (connectWS s).fetchesPending = s.fetchesPending := by
  unfold connectWS
  split_ifs <;> exact ⟨rfl, rfl, rfl, rfl, rfl, rfl, rfl⟩

theorem connectWS_sockets (s : State) :
    ∀ w ∈ (connectWS s).sockets, w ∈ s.sockets ∨
      (w.onopen = some Handler.onOpen ∧ w.onmessage = some Handler.onMessage ∧
        w.onclose = some Handler.closeOrError ∧ w.onerror = some Handler.closeOrError) := by
  unfold connectWS
  split_ifs <;> intro w hw
  · exact Or.inl hw
  all_goals
    rcases List.mem_append.1 hw with hw | hw
    · exact Or.inl hw
    · rw [List.mem_singleton.1 hw]; exact Or.inr ⟨rfl, rfl, rfl, rfl⟩

theorem Inv.connectWS {s : State} (h : Inv s) : Inv (connectWS s) := by
  obtain ⟨f1, f2, f3, f4, -, -, -⟩ := connectWS_fields s
  obtain ⟨h1, h2, h3, h4, h5, h6, h7, h8⟩ := h
  unfold Inv
  rw [f1, f2, f3, f4]
  refine ⟨h1, h2, h3, h4, h5, h6, h7, ?_⟩
  intro w hw
  rcases connectWS_sockets s w hw with hw | hw
  · exact h8 w hw
  · exact hw

theorem Inv.onOpen {s : State} (h : Inv s) : Inv (onOpen s) :=
  Inv.stopPolling (h.congr rfl rfl rfl rfl rfl)

theorem Inv.handleCloseOrError {s : State} (h : Inv s) : Inv (handleCloseOrError s) := by
  have h1 : Inv (WeatherMonitor.startPolling
      { s with dom := setConn s.dom "WS unavailable → polling" "conn-fallback" } 2000) :=
    Inv.startPolling (h.congr rfl rfl rfl rfl rfl)
  unfold WeatherMonitor.handleCloseOrError
  simp only
  split_ifs with hp
  · exact h1.addRetry (by simpa using hp)
  · exact h1

theorem Inv.runHandler {s : State} (h : Inv s) (o : Option Handler) : Inv (runHandler s o) := by
  rcases o with _ | _ | _ | _
  · exact h
  · exact h.onOpen
  · exact h
  · exact h.handleCloseOrError

theorem Inv.step {s : State} (h : Inv s) (e : Event) : Inv (step s e) := by
  cases e with
  | socketOpen i =>
    simp only [WeatherMonitor.step]
    split
    · split_ifs
      · exact (h.setReadyState _ _).runHandler _
      · exact h
    · exact h
  | socketMessage i parsed now =>
    simp only [WeatherMonitor.step]
    split
    · split_ifs
      · obtain ⟨d, hd⟩ := onMessage_eq s parsed now
        rw [hd]
        exact h.congr rfl rfl rfl rfl rfl
      · exact h
    · exact h
  | socketError i =>
    simp only [WeatherMonitor.step]
    split
    · exact (h.setReadyState _ _).runHandler _
    · exact h
  | socketClose i =>
    simp only [WeatherMonitor.step]
    split
    · exact (h.setReadyState _ _).runHandler _
    · exact h
  | pollTick =>
    simp only [WeatherMonitor.step]
    split_ifs
    · exact h.congr rfl rfl rfl rfl rfl
    · exact h
  | retryTick =>
    simp only [WeatherMonitor.step]
    split_ifs
    · exact h.connectWS
    · exact h
  | clockTick now =>
    simp only [WeatherMonitor.step]
    split_ifs
    · exact h.congr rfl rfl rfl rfl rfl
    · exact h
  | fetchDone r now =>
    simp only [WeatherMonitor.step]
    split_ifs
    · obtain ⟨d, hd⟩ := pollOnceResume_eq { s with fetchesPending := s.fetchesPending - 1 } r now
      rw [hd]
      exact h.congr rfl rfl rfl rfl rfl
    · exact h

theorem Inv.run {s : State} (h : Inv s) (events : List Event) : Inv (run s events) := by
  induction events generalizing s with
  | nil => exact h
  | cons e es ih => exact ih (h.step e)

theorem Inv.boot (dom : Dom) (loc : Location) (now : Moment) :
    Inv (WeatherMonitor.boot dom loc now) := by
  have e1 : (WeatherMonitor.boot dom loc now).nextTimerId = 2 := rfl
  have e2 : (WeatherMonitor.boot dom loc now).timers =
      [(⟨1, Callback.updateClock, 15000⟩ : Timer)] := rfl
  have e3 : (WeatherMonitor.boot dom loc now).pollTimer = none := rfl
  have e4 : (WeatherMonitor.boot dom loc now).retryTimer = none := rfl
  have e5 : ∀ w ∈ (WeatherMonitor.boot dom loc now).sockets,
      w.onopen = some Handler.onOpen ∧ w.onmessage = some Handler.onMessage ∧
        w.onclose = some Handler.closeOrError ∧ w.onerror = some Handler.closeOrError := by
    intro w hw
    rcases connectWS_sockets _ w hw with hw | hw
    · cases hw
    · exact hw
  unfold Inv
  rw [e1, e2, e3, e4]
  refine ⟨by decide, ?_, ?_, ?_, ?_, ?_, ?_, e5⟩
  · intro t ht
    rw [List.mem_singleton.1 ht]; decide
  · decide
  · intro t ht hc
    rw [List.mem_singleton.1 ht] at hc; cases hc
  · intro t ht hc
    rw [List.mem_singleton.1 ht] at hc; cases hc
  · intro id hid; cases hid
  · intro id hid; cases hid

theorem run_cons (s : State) (e : Event) (es : List Event) :
    run s (e :: es) = run (step s e) es := rfl

theorem run_append (s : State) (es fs : List Event) :
    run s (es ++ fs) = run (run s es) fs := by
  simp [run, List.foldl_append]

theorem eq_singleton_of_nodup {α : Type} {l : List α} {a : α} (hn : l.Nodup)
    (ha : ∀ x ∈ l, x = a) (hne : a ∈ l) : l = [a] := by
  rcases l with _ | ⟨x, l⟩
  · cases hne
  · have hx : x = a := ha x (List.mem_cons_self _ _)
    subst hx
    rcases l with _ | ⟨y, l⟩
    · rfl
    · have hy : y = x := ha y (List.mem_cons_of_mem _ (List.mem_cons_self _ _))
      subst hy
      exact absurd (List.mem_cons_self _ _) (List.nodup_cons.1 hn).1

theorem Inv.timers_nodup {s : State} (h : Inv s) (c : Callback) : (timersOf s c).Nodup :=
  (List.Nodup.of_map _ h.2.2.1).sublist (List.filter_sublist _)

theorem mem_timersOf {s : State} {c : Callback} {t : Timer} :
    t ∈ timersOf s c ↔ t ∈ s.timers ∧ t.callback = c := by
  simp [timersOf, List.mem_filter]

/-- The live poll timers are determined by the variable `pollTimer`. -/
theorem Inv.timersOf_poll {s : State} (h : Inv s) :
    timersOf s Callback.pollOnce =
      (s.pollTimer.map (fun id => (⟨id, Callback.pollOnce, 2000⟩ : Timer))).toList := by
  rcases hp : s.pollTimer with _ | id
  · have : ∀ t, t ∉ timersOf s Callback.pollOnce := by
      intro t ht
      have := (h.2.2.2.1 t (mem_timersOf.1 ht).1 (mem_timersOf.1 ht).2).1
      rw [hp] at this; cases this
    simpa using List.eq_nil_iff_forall_not_mem.2 this
  · show _ = [_]
    apply eq_singleton_of_nodup (h.timers_nodup _)
    · intro t ht
      obtain ⟨e1, e2⟩ := h.2.2.2.1 t (mem_timersOf.1 ht).1 (mem_timersOf.1 ht).2
      rw [hp] at e1
      have e3 := (mem_timersOf.1 ht).2
      obtain ⟨a, b, c⟩ := t
      simp only at e1 e2 e3
      rw [← Option.some.inj e1, e2, e3]
    · obtain ⟨t, ht, e1, e2⟩ := h.2.2.2.2.2.1 id hp
      have e3 := (h.2.2.2.1 t ht e2).2
      have : t = ⟨id, Callback.pollOnce, 2000⟩ := by
        obtain ⟨a, b, c⟩ := t
        simp only at e1 e2 e3
        rw [e1, e2, e3]
      have hm : t ∈ timersOf s _ := mem_timersOf.2 ⟨ht, e2⟩
      rw [this] at hm
      exact hm

/-- The live retry timers are determined by the variable `retryTimer`. -/
theorem Inv.timersOf_retry {s : State} (h : Inv s) :
    timersOf s Callback.retry =
      (s.retryTimer.map (fun id => (⟨id, Callback.retry, 5000⟩ : Timer))).toList := by
  rcases hp : s.retryTimer with _ | id
  · have : ∀ t, t ∉ timersOf s Callback.retry := by
      intro t ht
      have := (h.2.2.2.2.1 t (mem_timersOf.1 ht).1 (mem_timersOf.1 ht).2).1
      rw [hp] at this; cases this
    simpa using List.eq_nil_iff_forall_not_mem.2 this
  · show _ = [_]
    apply eq_singleton_of_nodup (h.timers_nodup _)
    · intro t ht
      obtain ⟨e1, e2⟩ := h.2.2.2.2.1 t (mem_timersOf.1 ht).1 (mem_timersOf.1 ht).2
      rw [hp] at e1
      have e3 := (mem_timersOf.1 ht).2
      obtain ⟨a, b, c⟩ := t
      simp only at e1 e2 e3
      rw [← Option.some.inj e1, e2, e3]
    · obtain ⟨t, ht, e1, e2⟩ := h.2.2.2.2.2.2.1 id hp
      have e3 := (h.2.2.2.2.1 t ht e2).2
      have : t = ⟨id, Callback.retry, 5000⟩ := by
        obtain ⟨a, b, c⟩ := t
        simp only at e1 e2 e3
        rw [e1, e2, e3]
      have hm : t ∈ timersOf s _ := mem_timersOf.2 ⟨ht, e2⟩
      rw [this] at hm
      exact hm

theorem Inv.timersRecorded {s : State} (h : Inv s) : TimersRecorded s := by
  refine ⟨?_, ?_, h.2.2.2.1, h.2.2.2.2.1, h.2.2.2.2.2.1, h.2.2.2.2.2.2.1⟩
  · rw [h.timersOf_poll]; rcases s.pollTimer with _ | id <;> simp
  · rw [h.timersOf_retry]; rcases s.retryTimer with _ | id <;> simp

theorem Inv.pollTimer_none {s : State} (h : Inv s) (hp : truthy s.pollTimer = false) :
    s.pollTimer = none := by
  rcases hs : s.pollTimer with _ | id
  · rfl
  · have := h.pollTimer_truthy hs
    rw [hp] at this; cases this

theorem Inv.retryTimer_none {s : State} (h : Inv s) (hp : truthy s.retryTimer = false) :
    s.retryTimer = none := by
  rcases hs : s.retryTimer with _ | id
  · rfl
  · have := h.retryTimer_truthy hs
    rw [hp] at this; cases this

/-! ### The handlers -/

theorem startPolling_truthy {s : State} (h : Inv s) :
    truthy (startPolling s 2000).pollTimer = true ∧
    (startPolling s 2000).retryTimer = s.retryTimer ∧
    (startPolling s 2000).sockets = s.sockets := by
  unfold startPolling
  split_ifs with hp
  · exact ⟨hp, rfl, rfl⟩
  · exact ⟨truthy_some h.1, rfl, rfl⟩

theorem startPolling_of_truthy {s : State} (hp : truthy s.pollTimer = true) :
    startPolling s 2000 = s := by
  simp [startPolling, hp]

theorem handleCloseOrError_truthy {s : State} (h : Inv s) :
    truthy (handleCloseOrError s).pollTimer = true ∧
    truthy (handleCloseOrError s).retryTimer = true ∧
    (handleCloseOrError s).sockets = s.sockets := by
  have h0 : Inv { s with dom := setConn s.dom "WS unavailable → polling" "conn-fallback" } :=
    h.congr rfl rfl rfl rfl rfl
  have h1 := Inv.startPolling h0
  obtain ⟨p1, p2, p3⟩ := startPolling_truthy h0
  unfold handleCloseOrError
  simp only
  split_ifs with hr
  · exact ⟨p1, truthy_some h1.1, p3⟩
  · exact ⟨p1, by simpa using hr, p3⟩

theorem handleCloseOrError_again {s : State} (hp : truthy s.pollTimer = true)
    (hr : truthy s.retryTimer = true) :
    (handleCloseOrError s).timers = s.timers ∧
    (handleCloseOrError s).pollTimer = s.pollTimer ∧
    (handleCloseOrError s).retryTimer = s.retryTimer ∧
    (handleCloseOrError s).fetchesIssued = s.fetchesIssued := by
  have e : startPolling { s with dom := setConn s.dom "WS unavailable → polling" "conn-fallback" }
      2000 = { s with dom := setConn s.dom "WS unavailable → polling" "conn-fallback" } :=
    startPolling_of_truthy hp
  unfold handleCloseOrError
  simp only [e, hr]
  exact ⟨rfl, rfl, rfl, rfl⟩

theorem setReadyState_fields (s : State) (i : ℕ) (r : ReadyState) :
    (setReadyState s i r).timers = s.timers ∧
    (setReadyState s i r).pollTimer = s.pollTimer ∧
    (setReadyState s i r).retryTimer = s.retryTimer ∧
    (setReadyState s i r).sockets.length = s.sockets.length ∧
    (setReadyState s i r).dom = s.dom ∧
    (setReadyState s i r).fetchesIssued = s.fetchesIssued :=
  ⟨rfl, rfl, rfl, by simp [setReadyState], rfl, rfl⟩

theorem Inv.get_handlers {s : State} (h : Inv s) {i : ℕ} {w : WebSocket}
    (hw : s.sockets.get? i = some w) :
    w.onopen = some Handler.onOpen ∧ w.onmessage = some Handler.onMessage ∧
      w.onclose = some Handler.closeOrError ∧ w.onerror = some Handler.closeOrError :=
  h.2.2.2.2.2.2.2 w (List.get?_mem hw)

theorem step_error_eq {s : State} (h : Inv s) {i : ℕ} (hi : i < s.sockets.length) :
    step s (Event.socketError i) = handleCloseOrError (setReadyState s i ReadyState.CLOSED) := by
  obtain ⟨w, hw⟩ : ∃ w, s.sockets.get? i = some w := ⟨_, List.get?_eq_get hi⟩
  simp only [step, hw, (h.get_handlers hw).2.2.2, runHandler]

theorem step_close_eq {s : State} (h : Inv s) {i : ℕ} (hi : i < s.sockets.length) :
    step s (Event.socketClose i) = handleCloseOrError (setReadyState s i ReadyState.CLOSED) := by
  obtain ⟨w, hw⟩ : ∃ w, s.sockets.get? i = some w := ⟨_, List.get?_eq_get hi⟩
  simp only [step, hw, (h.get_handlers hw).2.2.1, runHandler]

theorem step_open_eq {s : State} (h : Inv s) {i : ℕ} {w : WebSocket}
    (hw : s.sockets.get? i = some w) (hr : w.readyState = ReadyState.CONNECTING) :
    step s (Event.socketOpen i) = onOpen (setReadyState s i ReadyState.OPEN) := by
  simp only [step, hw, hr, (h.get_handlers hw).1, runHandler, if_true]

theorem stopPolling_fields {s : State} (h : Inv s) :
    (stopPolling s).pollTimer = none ∧ (stopPolling s).retryTimer = s.retryTimer ∧
    (stopPolling s).fetchesIssued = s.fetchesIssued ∧ (stopPolling s).dom = s.dom := by
  unfold stopPolling
  split_ifs with hp
  · split
    · exact ⟨rfl, rfl, rfl, rfl⟩
    · rename_i hn; exact ⟨hn, rfl, rfl, rfl⟩
  · exact ⟨h.pollTimer_none (by simpa using hp), rfl, rfl, rfl⟩

/-- C10. In every state reachable from boot under any sequence of events, at
most one poll timer and at most one retry timer are live, and each live one is
the timer recorded in `pollTimer` or `retryTimer`, at 2000 ms and 5000 ms.
Handling `error` and then `close` of a socket yields the timers of handling
`error` alone: one pull loop at 2000 ms and one reconnect loop at 5000 ms.  An
`open` of a connecting socket cancels the poll timer and leaves the retry timer
running. -/
theorem timers_recorded (dom : Dom) (loc : Location) (now : Moment) (events : List Event) :
    TimersRecorded (run (boot dom loc now) events) ∧
    (∀ i, i < (run (boot dom loc now) events).sockets.length →
      (run (boot dom loc now) (events ++ [Event.socketError i, Event.socketClose i])).timers =
        (run (boot dom loc now) (events ++ [Event.socketError i])).timers ∧
      (run (boot dom loc now) (events ++ [Event.socketError i, Event.socketClose i])).pollTimer =
        (run (boot dom loc now) (events ++ [Event.socketError i])).pollTimer ∧
      (run (boot dom loc now) (events ++ [Event.socketError i, Event.socketClose i])).retryTimer =
        (run (boot dom loc now) (events ++ [Event.socketError i])).retryTimer ∧
      (∃ p, (run (boot dom loc now) (events ++ [Event.socketError i])).pollTimer = some p ∧
        timersOf (run (boot dom loc now) (events ++ [Event.socketError i])) Callback.pollOnce =
          [⟨p, Callback.pollOnce, 2000⟩]) ∧
      (∃ r, (run (boot dom loc now) (events ++ [Event.socketError i])).retryTimer = some r ∧
        timersOf (run (boot dom loc now) (events ++ [Event.socketError i])) Callback.retry =
          [⟨r, Callback.retry, 5000⟩])) ∧
    (∀ i w, (run (boot dom loc now) events).sockets.get? i = some w →
      w.readyState = ReadyState.CONNECTING →
      (run (boot dom loc now) (events ++ [Event.socketOpen i])).pollTimer = none ∧
      timersOf (run (boot dom loc now) (events ++ [Event.socketOpen i])) Callback.pollOnce = [] ∧
      (run (boot dom loc now) (events ++ [Event.socketOpen i])).retryTimer =
        (run (boot dom loc now) events).retryTimer ∧
      timersOf (run (boot dom loc now) (events ++ [Event.socketOpen i])) Callback.retry =
        timersOf (run (boot dom loc now) events) Callback.retry) := by
  have hs : Inv (run (boot dom loc now) events) := (Inv.boot dom loc now).run events
  simp only [run_append]
  generalize run (boot dom loc now) events = s at hs ⊢
  refine ⟨hs.timersRecorded, ?_, ?_⟩
  · intro i hi
    show (step (step s (Event.socketError i)) (Event.socketClose i)).timers =
        (step s (Event.socketError i)).timers ∧
      (step (step s (Event.socketError i)) (Event.socketClose i)).pollTimer =
        (step s (Event.socketError i)).pollTimer ∧
      (step (step s (Event.socketError i)) (Event.socketClose i)).retryTimer =
        (step s (Event.socketError i)).retryTimer ∧
      (∃ p, (step s (Event.socketError i)).pollTimer = some p ∧
        timersOf (step s (Event.socketError i)) Callback.pollOnce =
          [⟨p, Callback.pollOnce, 2000⟩]) ∧
      (∃ r, (step s (Event.socketError i)).retryTimer = some r ∧
        timersOf (step s (Event.socketError i)) Callback.retry = [⟨r, Callback.retry, 5000⟩])
    have e1 := step_error_eq hs hi
    have hs1 : Inv (step s (Event.socketError i)) := hs.step _
    obtain ⟨tp, tr, tsock⟩ := handleCloseOrError_truthy (hs.setReadyState i ReadyState.CLOSED)
    rw [← e1] at tp tr tsock
    have hi1 : i < (step s (Event.socketError i)).sockets.length := by
      rw [tsock, (setReadyState_fields s i ReadyState.CLOSED).2.2.2.1]; exact hi
    rw [step_close_eq hs1 hi1]
    obtain ⟨a1, a2, a3, -⟩ := handleCloseOrError_again
      (s := setReadyState (step s (Event.socketError i)) i ReadyState.CLOSED) tp tr
    obtain ⟨p, hp, -⟩ := (truthy_iff _).1 tp
    obtain ⟨r, hr, -⟩ := (truthy_iff _).1 tr
    refine ⟨a1, a2, a3, ⟨p, hp, ?_⟩, ⟨r, hr, ?_⟩⟩
    · rw [hs1.timersOf_poll, hp]; rfl
    · rw [hs1.timersOf_retry, hr]; rfl
  · intro i w hw hr
    show (step s (Event.socketOpen i)).pollTimer = none ∧
      timersOf (step s (Event.socketOpen i)) Callback.pollOnce = [] ∧
      (step s (Event.socketOpen i)).retryTimer = s.retryTimer ∧
      timersOf (step s (Event.socketOpen i)) Callback.retry = timersOf s Callback.retry
    have hs1 : Inv (step s (Event.socketOpen i)) := hs.step _
    have e := step_open_eq hs hw hr
    have h0 : Inv { setReadyState s i ReadyState.OPEN with
        dom := setConn (setReadyState s i ReadyState.OPEN).dom "Live via WebSocket" "conn-ok" } :=
      (hs.setReadyState i ReadyState.OPEN).congr rfl rfl rfl rfl rfl
    obtain ⟨f1, f2, -, -⟩ := stopPolling_fields h0
    have g1 : (step s (Event.socketOpen i)).pollTimer = none := by rw [e]; exact f1
    have g2 : (step s (Event.socketOpen i)).retryTimer = s.retryTimer := by rw [e]; exact f2
    refine ⟨g1, ?_, g2, ?_⟩
    · rw [hs1.timersOf_poll, g1]; rfl
    · rw [hs1.timersOf_retry, hs.timersOf_retry, g2]

/-- After boot the only socket is connecting: its failure starts both loops, and
its opening leaves no poll timer. -/
theorem timers_recorded_witness :
    (∃ p, (run (boot samplePage sampleLocation sampleMoment)
        ([] ++ [Event.socketError 0])).pollTimer = some p ∧
      timersOf (run (boot samplePage sampleLocation sampleMoment) ([] ++ [Event.socketError 0]))
        Callback.pollOnce = [⟨p, Callback.pollOnce, 2000⟩]) ∧
    (run (boot samplePage sampleLocation sampleMoment) ([] ++ [Event.socketOpen 0])).pollTimer =
      none :=
  ⟨((timers_recorded samplePage sampleLocation sampleMoment []).2.1 0 (by decide)).2.2.2.1,
    ((timers_recorded samplePage sampleLocation sampleMoment []).2.2 0 _ rfl rfl).1⟩

/-! ### The connection manager -/

theorem wsActive_of (s : State) (i : ℕ) (w : WebSocket) (hws : s.ws = some i)
    (hw : s.sockets.get? i = some w)
    (hr : w.readyState = ReadyState.OPEN ∨ w.readyState = ReadyState.CONNECTING) :
    wsActive s = true := by
  simp only [wsActive, hws, hw]
  rcases hr with h | h <;> simp [h]

/-- C6. In a state whose `ws` refers to a socket that is `OPEN` or
`CONNECTING`, `connectWS` changes nothing: no socket is created, and `ws`, the
handlers, both timers and the status stay as they are.  Hence any number of
ticks of the reconnect timer in such a state leave it as it is. -/
theorem connectWS_noop (s : State) (i : ℕ) (w : WebSocket) (hws : s.ws = some i)
    (hw : s.sockets.get? i = some w)
    (hr : w.readyState = ReadyState.OPEN ∨ w.readyState = ReadyState.CONNECTING) :
    connectWS s = s ∧
    (connectWS s).sockets.length = s.sockets.length ∧
    ∀ n : ℕ, run s (List.replicate n Event.retryTick) = s ∧
      (run s (List.replicate n Event.retryTick)).sockets.length = s.sockets.length := by
  have ha := wsActive_of s i w hws hw hr
  have hc : connectWS s = s := by simp [connectWS, ha]
  have hstep : step s Event.retryTick = s := by
    simp only [step]; split_ifs <;> simp [hc]
  have hn : ∀ n : ℕ, run s (List.replicate n Event.retryTick) = s := by
    intro n
    induction n with
    | zero => rfl
    | succ n ih => rw [List.replicate_succ, run_cons, hstep, ih]
  exact ⟨hc, by rw [hc], fun n => ⟨hn n, by rw [hn n]⟩⟩

/-- After boot the socket is connecting, and three ticks of the reconnect timer
change nothing. -/
theorem connectWS_noop_witness :
    (boot samplePage sampleLocation sampleMoment).ws = some 0 ∧
    connectWS (boot samplePage sampleLocation sampleMoment) =
      boot samplePage sampleLocation sampleMoment ∧
    run (boot samplePage sampleLocation sampleMoment) (List.replicate 3 Event.retryTick) =
      boot samplePage sampleLocation sampleMoment :=
  ⟨rfl,
    (connectWS_noop (boot samplePage sampleLocation sampleMoment) 0 _ rfl rfl (Or.inr rfl)).1,
    ((connectWS_noop (boot samplePage sampleLocation sampleMoment) 0 _ rfl rfl
      (Or.inr rfl)).2.2 3).1⟩

/-- C7. When `JSON.parse` throws on the data of a message, the handler
`ws.onmessage` returns normally with the state it started from: the document
(texts, sliders, gauges, clock, status), `ws`, the sockets and both timers are
unchanged.  So is the state after the event as a whole. -/
theorem onMessage_malformed (s : State) (err : String) (now : Moment) (i : ℕ) :
    onMessage s (Except.error err) now = Except.ok s ∧
    step s (Event.socketMessage i (Except.error err) now) = s := by
  refine ⟨rfl, ?_⟩
  simp only [step]
  split
  · split_ifs <;> rfl
  · rfl

/-- The result of a pull that failed: the status is `Offline`, the rest of the
document and of the state is unchanged. -/
theorem pollOnceResume_failed (s : State) (r : FetchResult) (now : Moment)
    (hr : r = FetchResult.networkError ∨ (∃ st, r = FetchResult.response st none) ∨
      ∃ st j e, r = FetchResult.response st (some j) ∧
        updateWeatherUI s.dom j now = Except.error e) :
    pollOnceResume s r now = { s with dom := setConn s.dom "Offline" "conn-off" } := by
  rcases hr with rfl | ⟨st, rfl⟩ | ⟨st, j, e, rfl, he⟩
  · rfl
  · rfl
  · simp only [pollOnceResume, he]

/-- The result of a pull that delivered a reading. -/
theorem pollOnceResume_delivered (s : State) (st : ℕ) (j : JSVal) (now : Moment) (d : Dom)
    (hd : updateWeatherUI s.dom j now = Except.ok d) :
    pollOnceResume s (FetchResult.response st (some j)) now =
      { s with dom := setConn d "Polling /api/latest" "conn-fallback" } := by
  simp only [pollOnceResume, hd]

theorem setConn_offline (d : Dom) : (setConn d "Offline" "conn-off").connText = "Offline" ∧
    (setConn d "Offline" "conn-off").connClass = "conn-status conn-off" :=
  ⟨rfl, by simp only [setConn]; decide⟩

theorem setConn_polling (d : Dom) :
    (setConn d "Polling /api/latest" "conn-fallback").connText = "Polling /api/latest" ∧
    (setConn d "Polling /api/latest" "conn-fallback").connClass =
      "conn-status conn-fallback" :=
  ⟨rfl, by simp only [setConn]; decide⟩

/-- C9, as stated, fails: after the socket failed, a response with status 500
and the JSON body `{}` is taken as a reading; the status becomes
`Polling /api/latest`, not `Offline`, and the placeholders of the empty reading
are displayed. -/
theorem status500_reported_as_polling :
    StatusPolling (run (boot samplePage sampleLocation sampleMoment)
      [Event.socketError 0,
        Event.fetchDone (FetchResult.response 500 (some (JSVal.obj []))) sampleMoment]) ∧
    ¬ StatusOffline (run (boot samplePage sampleLocation sampleMoment)
      [Event.socketError 0,
        Event.fetchDone (FetchResult.response 500 (some (JSVal.obj []))) sampleMoment]) ∧
    (run (boot samplePage sampleLocation sampleMoment)
      [Event.socketError 0,
        Event.fetchDone (FetchResult.response 500 (some (JSVal.obj []))) sampleMoment]
      ).dom.outsideTemp = "--.-°C" ∧
    (run (boot samplePage sampleLocation sampleMoment)
      [Event.socketError 0]).dom.outsideTemp = "" := by
  unfold StatusPolling StatusOffline
  decide!

/-- C9, amended. When the request fails at the network level, when the body of
the response is not JSON, and when `updateWeatherUI` throws on the body,
`pollOnce` reports `Offline`, delivers no reading (the rest of the document is
unchanged) and leaves `pollTimer`, `retryTimer`, `ws`, the sockets and the live
timers unchanged.  When the response, whatever its HTTP status, carries a JSON
body on which `updateWeatherUI` returns, the body is delivered as a reading and
the status `Polling /api/latest` is reported.  That status is reported only
when the response carries a JSON body.  The timers and `ws` are unchanged in
every case. -/
theorem pollOnceResume_status (s : State) (r : FetchResult) (now : Moment) :
    ((r = FetchResult.networkError ∨ (∃ st, r = FetchResult.response st none) ∨
        ∃ st j e, r = FetchResult.response st (some j) ∧
          updateWeatherUI s.dom j now = Except.error e) →
      StatusOffline (pollOnceResume s r now) ∧
      (pollOnceResume s r now).dom = setConn s.dom "Offline" "conn-off") ∧
    (∀ st j d, r = FetchResult.response st (some j) →
      updateWeatherUI s.dom j now = Except.ok d →
      StatusPolling (pollOnceResume s r now) ∧
      (pollOnceResume s r now).dom = setConn d "Polling /api/latest" "conn-fallback") ∧
    (StatusPolling (pollOnceResume s r now) →
      ∃ st j d, r = FetchResult.response st (some j) ∧
        updateWeatherUI s.dom j now = Except.ok d) ∧
    (StatusPolling (pollOnceResume s r now) ∨ StatusOffline (pollOnceResume s r now)) ∧
    (pollOnceResume s r now).pollTimer = s.pollTimer ∧
    (pollOnceResume s r now).retryTimer = s.retryTimer ∧
    (pollOnceResume s r now).ws = s.ws ∧
    (pollOnceResume s r now).sockets = s.sockets ∧
    (pollOnceResume s r now).timers = s.timers := by
  have hne : ¬ ("Offline" = "Polling /api/latest") := by decide
  have hcases : r = FetchResult.networkError ∨ (∃ st, r = FetchResult.response st none) ∨
      (∃ st j e, r = FetchResult.response st (some j) ∧
        updateWeatherUI s.dom j now = Except.error e) ∨
      ∃ st j d, r = FetchResult.response st (some j) ∧
        updateWeatherUI s.dom j now = Except.ok d := by
    rcases r with _ | ⟨st, _ | j⟩
    · exact Or.inl rfl
    · exact Or.inr (Or.inl ⟨st, rfl⟩)
    · rcases hu : updateWeatherUI s.dom j now with e | d
      · exact Or.inr (Or.inr (Or.inl ⟨st, j, e, rfl, hu⟩))
      · exact Or.inr (Or.inr (Or.inr ⟨st, j, d, rfl, hu⟩))
  have hfail : (r = FetchResult.networkError ∨ (∃ st, r = FetchResult.response st none) ∨
        ∃ st j e, r = FetchResult.response st (some j) ∧
          updateWeatherUI s.dom j now = Except.error e) →
      StatusOffline (pollOnceResume s r now) ∧
      (pollOnceResume s r now).dom = setConn s.dom "Offline" "conn-off" := by
    intro hr
    rw [pollOnceResume_failed s r now hr]
    exact ⟨setConn_offline _, rfl⟩
  have hok : ∀ st j d, r = FetchResult.response st (some j) →
      updateWeatherUI s.dom j now = Except.ok d →
      StatusPolling (pollOnceResume s r now) ∧
      (pollOnceResume s r now).dom = setConn d "Polling /api/latest" "conn-fallback" := by
    rintro st j d rfl hd
    rw [pollOnceResume_delivered s st j now d hd]
    exact ⟨setConn_polling _, rfl⟩
  obtain ⟨d0, hd0⟩ := pollOnceResume_eq s r now
  refine ⟨hfail, hok, ?_, ?_, ?_, ?_, ?_, ?_, ?_⟩
  · intro h
    rcases hcases with h1 | h1 | h1 | h1
    · exact absurd ((hfail (Or.inl h1)).1.1.symm.trans h.1) hne
    · exact absurd ((hfail (Or.inr (Or.inl h1))).1.1.symm.trans h.1) hne
    · exact absurd ((hfail (Or.inr (Or.inr h1))).1.1.symm.trans h.1) hne
    · exact h1
  · rcases hcases with h1 | h1 | h1 | ⟨st, j, d, h1, h2⟩
    · exact Or.inr (hfail (Or.inl h1)).1
    · exact Or.inr (hfail (Or.inr (Or.inl h1))).1
    · exact Or.inr (hfail (Or.inr (Or.inr h1))).1
    · exact Or.inl (hok st j d h1 h2).1
  all_goals (rw [hd0])

/-- A request that fails at the network level reports `Offline`, a response whose
`humidity` makes `updateWeatherUI` throw reports `Offline`, and the sample
reading reports `Polling /api/latest`. -/
theorem pollOnceResume_status_witness :
    StatusOffline (pollOnceResume (boot samplePage sampleLocation sampleMoment)
      FetchResult.networkError sampleMoment) ∧
    StatusOffline (pollOnceResume (boot samplePage sampleLocation sampleMoment)
      (FetchResult.response 200 (some badReading)) sampleMoment) ∧
    StatusPolling (pollOnceResume (boot samplePage sampleLocation sampleMoment)
      (FetchResult.response 200 (some sampleReading)) sampleMoment) :=
  ⟨((pollOnceResume_status (boot samplePage sampleLocation sampleMoment)
      FetchResult.networkError sampleMoment).1 (Or.inl rfl)).1,
    ((pollOnceResume_status (boot samplePage sampleLocation sampleMoment)
      (FetchResult.response 200 (some badReading)) sampleMoment).1
        (Or.inr (Or.inr ⟨200, badReading, "TypeError", rfl, rfl⟩))).1,
    ((pollOnceResume_status (boot samplePage sampleLocation sampleMoment)
      (FetchResult.response 200 (some sampleReading)) sampleMoment).2.1 200 sampleReading _ rfl
        rfl).1⟩

/-! ### The reconnect scenario -/

theorem updateWeatherUI_conn (d : Dom) (j : JSVal) (now : Moment) (d1 : Dom)
    (h : updateWeatherUI d j now = Except.ok d1) :
    d1.connText = d.connText ∧ d1.connClass = d.connClass := by
  obtain ⟨x, y, -, -, rfl⟩ := updateWeatherUI_returns d j now d1 h
  simp only [updateClock, setHumidityUI, setTempUI]
  split_ifs <;> exact ⟨rfl, rfl⟩

/-- The handler `ws.onmessage` keeps the status line. -/
theorem onMessage_conn (s : State) (parsed : Except String JSVal) (now : Moment) :
    ∃ d, onMessage s parsed now = Except.ok { s with dom := d } ∧
      d.connText = s.dom.connText ∧ d.connClass = s.dom.connClass := by
  unfold onMessage
  rcases parsed with e | data
  · exact ⟨s.dom, rfl, rfl, rfl⟩
  · simp only [Except.bind]
    rcases hu : updateWeatherUI s.dom data now with e | d
    · exact ⟨s.dom, rfl, rfl, rfl⟩
    · exact ⟨d, rfl, updateWeatherUI_conn s.dom data now d hu⟩

theorem setConn_status (d : Dom) :
    ((setConn d "Live via WebSocket" "conn-ok").connText = "Live via WebSocket" ∧
      (setConn d "Live via WebSocket" "conn-ok").connClass = "conn-status conn-ok") ∧
    ((setConn d "WS unavailable → polling" "conn-fallback").connText =
        "WS unavailable → polling" ∧
      (setConn d "WS unavailable → polling" "conn-fallback").connClass =
        "conn-status conn-fallback") := by
  refine ⟨⟨rfl, ?_⟩, ⟨rfl, ?_⟩⟩ <;> (simp only [setConn]; decide)

theorem run_preserves (F : State → Prop) (allowed : Event → Prop)
    (hstep : ∀ s e, F s → allowed e → F (step s e)) (s : State) (hs : F s)
    (events : List Event) (he : ∀ e ∈ events, allowed e) : F (run s events) := by
  induction events generalizing s with
  | nil => exact hs
  | cons e es ih =>
    exact ih (step s e) (hstep s e hs (he e (List.mem_cons_self _ _)))
      (fun e' he' => he e' (List.mem_cons_of_mem _ he'))

theorem boot_stage (dom : Dom) (loc : Location) (now : Moment) :
    boot dom loc now = stageFirst (updateClock dom now) loc ReadyState.CONNECTING := rfl

/-- Before the first `close`, an event other than `open`, `close` and `error`
changes at most the document, and keeps the status line. -/
theorem stageFirst_step (dom : Dom) (loc : Location) (r : ReadyState) (e : Event)
    (he : e.isSocketEvent = false) :
    ∃ d, step (stageFirst dom loc r) e = stageFirst d loc r ∧
      d.connText = dom.connText ∧ d.connClass = dom.connClass := by
  cases e with
  | socketOpen i => cases he
  | socketError i => cases he
  | socketClose i => cases he
  | socketMessage i parsed now =>
    obtain ⟨d, hd, c1, c2⟩ := onMessage_conn (stageFirst dom loc r) parsed now
    rcases i with _ | i
    · simp only [step, stageFirst, List.get?] at hd ⊢
      split_ifs
      · rw [hd]; exact ⟨d, rfl, c1, c2⟩
      · exact ⟨dom, rfl, rfl, rfl⟩
    · exact ⟨dom, rfl, rfl, rfl⟩
  | pollTick => exact ⟨dom, rfl, rfl, rfl⟩
  | retryTick => exact ⟨dom, rfl, rfl, rfl⟩
  | clockTick now => exact ⟨updateClock dom now, rfl, rfl, rfl⟩
  | fetchDone r now => exact ⟨dom, rfl, rfl, rfl⟩

theorem stageFirst_open (dom : Dom) (loc : Location) :
    step (stageFirst dom loc ReadyState.CONNECTING) (Event.socketOpen 0) =
      stageFirst (setConn dom "Live via WebSocket" "conn-ok") loc ReadyState.OPEN := rfl

theorem stageFirst_close (dom : Dom) (loc : Location) (e : Event)
    (he : e.isFirstCloseOrError = true) :
    step (stageFirst dom loc ReadyState.OPEN) e =
      stagePolling (setConn dom "WS unavailable → polling" "conn-fallback") loc none 1 1 := by
  rcases e with i | _ | i | i | _ | _ | _ | _
  · cases he
  · cases he
  · rcases i with _ | i
    · rfl
    · cases he
  · rcases i with _ | i
    · rfl
    · cases he
  all_goals cases he

/-- While polling, before the second socket has opened, an event other than
`open`, a `close` or `error` of the second socket and a tick of the reconnect
timer keeps both timers and the sockets. -/
theorem stagePolling_step (dom : Dom) (loc : Location) (second : Option ReadyState)
    (hsec : second = none ∨ second = some ReadyState.CONNECTING)
    (issued pending : ℕ) (e : Event)
    (he : (e.isSocketEvent = false ∨ e.isFirstCloseOrError = true) ∧ e.isRetryTick = false) :
    ∃ d i p, step (stagePolling dom loc second issued pending) e =
      stagePolling d loc second i p := by
  cases e with
  | socketOpen i => rcases he with ⟨h | h, -⟩ <;> cases h
  | socketError i =>
    rcases i with _ | i
    · exact ⟨_, _, _, rfl⟩
    · rcases he with ⟨h | h, -⟩ <;> cases h
  | socketClose i =>
    rcases i with _ | i
    · exact ⟨_, _, _, rfl⟩
    · rcases he with ⟨h | h, -⟩ <;> cases h
  | socketMessage i parsed now =>
    rcases i with _ | _ | i
    · exact ⟨_, _, _, rfl⟩
    · rcases hsec with rfl | rfl <;> exact ⟨_, _, _, rfl⟩
    · rcases hsec with rfl | rfl <;> exact ⟨_, _, _, rfl⟩
  | pollTick => exact ⟨_, _, _, rfl⟩
  | retryTick => cases he.2
  | clockTick now => exact ⟨_, _, _, rfl⟩
  | fetchDone r now =>
    simp only [step]
    split_ifs
    · obtain ⟨d, hd⟩ := pollOnceResume_eq
        { stagePolling dom loc second issued pending with
          fetchesPending := (stagePolling dom loc second issued pending).fetchesPending - 1 } r now
      rw [hd]
      exact ⟨d, issued, pending - 1, rfl⟩
    · exact ⟨_, _, _, rfl⟩

theorem stagePolling_retry (dom : Dom) (loc : Location) (issued pending : ℕ) :
    step (stagePolling dom loc none issued pending) Event.retryTick =
      stagePolling dom loc (some ReadyState.CONNECTING) issued pending := rfl

theorem stagePolling_retry_again (dom : Dom) (loc : Location) (issued pending : ℕ) :
    step (stagePolling dom loc (some ReadyState.CONNECTING) issued pending) Event.retryTick =
      stagePolling dom loc (some ReadyState.CONNECTING) issued pending := rfl

theorem stagePolling_open (dom : Dom) (loc : Location) (issued pending : ℕ) :
    step (stagePolling dom loc (some ReadyState.CONNECTING) issued pending) (Event.socketOpen 1) =
      stageReopened (setConn dom "Live via WebSocket" "conn-ok") loc issued pending := rfl

/-- After the second socket has opened, an event other than `close` and `error`
issues no request and keeps the sockets and the timers; it keeps the status line
unless it settles a request. -/
theorem stageReopened_step (dom : Dom) (loc : Location) (issued pending : ℕ) (e : Event)
    (he : e.isCloseOrError = false) :
    ∃ d p, step (stageReopened dom loc issued pending) e = stageReopened d loc issued p ∧
      p ≤ pending ∧
      ((e.isFetchDone = false ∨ pending = 0) →
        d.connText = dom.connText ∧ d.connClass = dom.connClass) := by
  cases e with
  | socketOpen i =>
    rcases i with _ | _ | i <;> exact ⟨dom, pending, rfl, le_refl _, fun _ => ⟨rfl, rfl⟩⟩
  | socketError i => cases he
  | socketClose i => cases he
  | socketMessage i parsed now =>
    rcases i with _ | _ | i
    · exact ⟨dom, pending, rfl, le_refl _, fun _ => ⟨rfl, rfl⟩⟩
    · obtain ⟨d, hd, c1, c2⟩ := onMessage_conn (stageReopened dom loc issued pending) parsed now
      refine ⟨d, pending, ?_, le_refl _, fun _ => ⟨c1, c2⟩⟩
      simp only [step, stageReopened, List.get?, socketAt, and_self, if_true] at hd ⊢
      rw [hd]
    · exact ⟨dom, pending, rfl, le_refl _, fun _ => ⟨rfl, rfl⟩⟩
  | pollTick => exact ⟨dom, pending, rfl, le_refl _, fun _ => ⟨rfl, rfl⟩⟩
  | retryTick => exact ⟨dom, pending, rfl, le_refl _, fun _ => ⟨rfl, rfl⟩⟩
  | clockTick now => exact ⟨_, pending, rfl, le_refl _, fun _ => ⟨rfl, rfl⟩⟩
  | fetchDone r now =>
    simp only [step]
    split_ifs with hp
    · obtain ⟨d, hd⟩ := pollOnceResume_eq
        { stageReopened dom loc issued pending with
          fetchesPending := (stageReopened dom loc issued pending).fetchesPending - 1 } r now
      rw [hd]
      refine ⟨d, pending - 1, rfl, Nat.sub_le _ _, ?_⟩
      rintro (h | h)
      · cases h
      · have : 0 < pending := hp
        omega
    · exact ⟨dom, pending, rfl, le_refl _, fun _ => ⟨rfl, rfl⟩⟩

theorem stageReopened_run (dom : Dom) (loc : Location) (issued pending : ℕ)
    (events : List Event) (he : ∀ e ∈ events, e.isCloseOrError = false) :
    ∃ d p, run (stageReopened dom loc issued pending) events = stageReopened d loc issued p ∧
      p ≤ pending ∧
      (((∀ e ∈ events, e.isFetchDone = false) ∨ pending = 0) →
        d.connText = dom.connText ∧ d.connClass = dom.connClass) := by
  induction events generalizing dom pending with
  | nil => exact ⟨dom, pending, rfl, le_refl _, fun _ => ⟨rfl, rfl⟩⟩
  | cons e es ih =>
    obtain ⟨d1, p1, h1, l1, c1⟩ :=
      stageReopened_step dom loc issued pending e (he e (List.mem_cons_self _ _))
    obtain ⟨d2, p2, h2, l2, c2⟩ :=
      ih d1 p1 (fun e' he' => he e' (List.mem_cons_of_mem _ he'))
    refine ⟨d2, p2, ?_, le_trans l2 l1, ?_⟩
    · rw [run_cons, h1, h2]
    · intro hc
      have a1 : d1.connText = dom.connText ∧ d1.connClass = dom.connClass := by
        apply c1
        rcases hc with hc | hc
        · exact Or.inl (hc e (List.mem_cons_self _ _))
        · exact Or.inr hc
      have a2 : d2.connText = d1.connText ∧ d2.connClass = d1.connClass := by
        apply c2
        rcases hc with hc | hc
        · exact Or.inl (fun e' he' => hc e' (List.mem_cons_of_mem _ he'))
        · exact Or.inr (by omega)
      exact ⟨a2.1.trans a1.1, a2.2.trans a1.2⟩

/-- The stages of the reconnect scenario, for every interleaving of the other
events. -/
theorem scenario_stages (dom : Dom) (loc : Location) (now : Moment)
    (pre mid1 mid2 mid3 : List Event) (ev : Event)
    (hpre : ∀ e ∈ pre, e.isSocketEvent = false)
    (hmid1 : ∀ e ∈ mid1, e.isSocketEvent = false)
    (hev : ev.isFirstCloseOrError = true)
    (hmid2 : ∀ e ∈ mid2,
      (e.isSocketEvent = false ∨ e.isFirstCloseOrError = true) ∧ e.isRetryTick = false)
    (hmid3 : ∀ e ∈ mid3, e.isSocketEvent = false ∨ e.isFirstCloseOrError = true) :
    ∃ d1 d2 d3 d4 i3 p3 i4 p4,
      run (boot dom loc now) pre = stageFirst d1 loc ReadyState.CONNECTING ∧
      run (boot dom loc now) (pre ++ [Event.socketOpen 0] ++ mid1) =
        stageFirst d2 loc ReadyState.OPEN ∧
      StatusLive (stageFirst d2 loc ReadyState.OPEN) ∧
      run (boot dom loc now) (pre ++ [Event.socketOpen 0] ++ mid1 ++ [ev] ++ mid2) =
        stagePolling d3 loc none i3 p3 ∧
      run (boot dom loc now)
          (pre ++ [Event.socketOpen 0] ++ mid1 ++ [ev] ++ mid2 ++ [Event.retryTick] ++ mid3) =
        stagePolling d4 loc (some ReadyState.CONNECTING) i4 p4 := by
  obtain ⟨d1, h1⟩ : ∃ d, run (boot dom loc now) pre = stageFirst d loc ReadyState.CONNECTING := by
    refine run_preserves (fun s => ∃ d, s = stageFirst d loc ReadyState.CONNECTING)
      (fun e => e.isSocketEvent = false) ?_ _ ⟨_, boot_stage dom loc now⟩ pre hpre
    rintro s e ⟨d, rfl⟩ he
    obtain ⟨d', hd, -, -⟩ := stageFirst_step d loc ReadyState.CONNECTING e he
    exact ⟨d', hd⟩
  obtain ⟨d2, h2, l2⟩ : ∃ d, run (stageFirst (setConn d1 "Live via WebSocket" "conn-ok") loc
      ReadyState.OPEN) mid1 = stageFirst d loc ReadyState.OPEN ∧
      StatusLive (stageFirst d loc ReadyState.OPEN) := by
    refine run_preserves (fun s => ∃ d, s = stageFirst d loc ReadyState.OPEN ∧
        StatusLive (stageFirst d loc ReadyState.OPEN))
      (fun e => e.isSocketEvent = false) ?_ _ ⟨_, rfl, (setConn_status _).1⟩ mid1 hmid1
    rintro s e ⟨d, rfl, hl⟩ he
    obtain ⟨d', hd, c1, c2⟩ := stageFirst_step d loc ReadyState.OPEN e he
    exact ⟨d', hd, c1.trans hl.1, c2.trans hl.2⟩
  obtain ⟨d3, i3, p3, h3⟩ : ∃ d i p,
      run (stagePolling (setConn d2 "WS unavailable → polling" "conn-fallback") loc none 1 1)
        mid2 = stagePolling d loc none i p := by
    refine run_preserves (fun s => ∃ d i p, s = stagePolling d loc none i p)
      (fun e => (e.isSocketEvent = false ∨ e.isFirstCloseOrError = true) ∧
        e.isRetryTick = false) ?_ _ ⟨_, _, _, rfl⟩ mid2 hmid2
    rintro s e ⟨d, i, p, rfl⟩ he
    exact stagePolling_step d loc none (Or.inl rfl) i p e he
  obtain ⟨d4, i4, p4, h4⟩ : ∃ d i p,
      run (stagePolling d3 loc (some ReadyState.CONNECTING) i3 p3) mid3 =
        stagePolling d loc (some ReadyState.CONNECTING) i p := by
    refine run_preserves (fun s => ∃ d i p, s = stagePolling d loc (some ReadyState.CONNECTING) i p)
      (fun e => e.isSocketEvent = false ∨ e.isFirstCloseOrError = true) ?_ _ ⟨_, _, _, rfl⟩
      mid3 hmid3
    rintro s e ⟨d, i, p, rfl⟩ he
    by_cases hr : e.isRetryTick = false
    · exact stagePolling_step d loc _ (Or.inr rfl) i p e ⟨he, hr⟩
    · have : e = Event.retryTick := by
        cases e <;> first | rfl | exact absurd rfl hr
      subst this
      exact ⟨d, i, p, stagePolling_retry_again d loc i p⟩
  have e2 : run (boot dom loc now) (pre ++ [Event.socketOpen 0] ++ mid1) =
      stageFirst d2 loc ReadyState.OPEN := by
    rw [run_append, run_append, h1, ← h2]; rfl
  have e3 : run (boot dom loc now) (pre ++ [Event.socketOpen 0] ++ mid1 ++ [ev] ++ mid2) =
      stagePolling d3 loc none i3 p3 := by
    rw [run_append, run_append, e2, ← h3]
    show run (step _ ev) mid2 = _
    rw [stageFirst_close d2 loc ev hev]
  have e4 : run (boot dom loc now)
      (pre ++ [Event.socketOpen 0] ++ mid1 ++ [ev] ++ mid2 ++ [Event.retryTick] ++ mid3) =
      stagePolling d4 loc (some ReadyState.CONNECTING) i4 p4 := by
    rw [run_append, run_append, e3, ← h4]; rfl
  exact ⟨d1, d2, d3, d4, i3, p3, i4, p4, h1, e2, l2, e3, e4⟩

/-- C8, as stated, fails, in an instance of the scenario: the socket opens and
closes, the pull issued on `close` is answered, the poll timer ticks at 2 s and
at 4 s, the reconnect timer ticks at 5 s and the second socket opens.  The status
is then that of the live stream, but the pull of 4 s is still in flight, and when
it is answered the status becomes `Polling /api/latest` although the second
socket is open and neither `close` nor `error` has occurred since. -/
theorem late_response_overwrites_status :
    StatusLive (run (boot samplePage sampleLocation sampleMoment) reconnectTrace) ∧
    (run (boot samplePage sampleLocation sampleMoment) reconnectTrace).fetchesPending = 1 ∧
    (∀ e ∈ lateResponse, e.isCloseOrError = false) ∧
    StatusPolling (run (boot samplePage sampleLocation sampleMoment)
      (reconnectTrace ++ lateResponse)) ∧
    ¬ StatusLive (run (boot samplePage sampleLocation sampleMoment)
      (reconnectTrace ++ lateResponse)) ∧
    wsActive (run (boot samplePage sampleLocation sampleMoment)
      (reconnectTrace ++ lateResponse)) = true ∧
    (run (boot samplePage sampleLocation sampleMoment) (reconnectTrace ++ lateResponse)).ws =
      some 1 := by
  unfold StatusLive StatusPolling
  decide!

/-- C8, amended. Let the events of the scenario (the `open` of the first socket,
its `close` or `error`, the first tick of the reconnect timer, the `open` of the
second socket) be interleaved with any other events: messages, ticks of the
clock and of the poll timer, settling requests, and, once polling has begun,
further `close` and `error` events of the first socket and, once the second
socket exists, further ticks of the reconnect timer.  From the state after boot:
(1) the `open` of the first socket sets the status of the live stream, which
stays until the socket fails; (2) its `close` or `error` then sets the status of
the polling fallback, issues one request and leaves one poll timer at 2000 ms,
which stays live until the reconnect; (3) the first tick of the reconnect timer
then creates a second socket, whose `open` restores the status of the live
stream and cancels the poll timer.  From then on, as long as no `close` or
`error` occurs, the second socket stays open, no further request is issued and
no poll timer is live; the status stays that of the live stream if, in addition,
no request settles or none was in flight when the second socket opened. -/
theorem reconnect_scenario (dom : Dom) (loc : Location) (now : Moment)
    (pre mid1 mid2 mid3 post : List Event) (ev : Event)
    (hpre : ∀ e ∈ pre, e.isSocketEvent = false)
    (hmid1 : ∀ e ∈ mid1, e.isSocketEvent = false)
    (hev : ev.isFirstCloseOrError = true)
    (hmid2 : ∀ e ∈ mid2,
      (e.isSocketEvent = false ∨ e.isFirstCloseOrError = true) ∧ e.isRetryTick = false)
    (hmid3 : ∀ e ∈ mid3, e.isSocketEvent = false ∨ e.isFirstCloseOrError = true)
    (hpost : ∀ e ∈ post, e.isCloseOrError = false) :
    (StatusLive (run (boot dom loc now) (pre ++ [Event.socketOpen 0])) ∧
      StatusLive (run (boot dom loc now) (pre ++ [Event.socketOpen 0] ++ mid1))) ∧
    (StatusFallback (run (boot dom loc now) (pre ++ [Event.socketOpen 0] ++ mid1 ++ [ev])) ∧
      (run (boot dom loc now) (pre ++ [Event.socketOpen 0] ++ mid1 ++ [ev])).fetchesIssued =
        (run (boot dom loc now) (pre ++ [Event.socketOpen 0] ++ mid1)).fetchesIssued + 1 ∧
      timersOf (run (boot dom loc now) (pre ++ [Event.socketOpen 0] ++ mid1 ++ [ev]))
        Callback.pollOnce = [⟨2, Callback.pollOnce, 2000⟩] ∧
      (run (boot dom loc now) (pre ++ [Event.socketOpen 0] ++ mid1 ++ [ev])).pollTimer =
        some 2 ∧
      timersOf (run (boot dom loc now) (pre ++ [Event.socketOpen 0] ++ mid1 ++ [ev] ++ mid2))
        Callback.pollOnce = [⟨2, Callback.pollOnce, 2000⟩]) ∧
    ((run (boot dom loc now)
        (pre ++ [Event.socketOpen 0] ++ mid1 ++ [ev] ++ mid2)).sockets.length = 1 ∧
      (run (boot dom loc now)
        (pre ++ [Event.socketOpen 0] ++ mid1 ++ [ev] ++ mid2 ++ [Event.retryTick])
        ).sockets.length = 2 ∧
      (run (boot dom loc now)
        (pre ++ [Event.socketOpen 0] ++ mid1 ++ [ev] ++ mid2 ++ [Event.retryTick])).ws =
        some 1) ∧
    (StatusLive (run (boot dom loc now)
        (pre ++ [Event.socketOpen 0] ++ mid1 ++ [ev] ++ mid2 ++ [Event.retryTick] ++ mid3 ++
          [Event.socketOpen 1])) ∧
      (run (boot dom loc now)
        (pre ++ [Event.socketOpen 0] ++ mid1 ++ [ev] ++ mid2 ++ [Event.retryTick] ++ mid3 ++
          [Event.socketOpen 1])).pollTimer = none ∧
      timersOf (run (boot dom loc now)
        (pre ++ [Event.socketOpen 0] ++ mid1 ++ [ev] ++ mid2 ++ [Event.retryTick] ++ mid3 ++
          [Event.socketOpen 1])) Callback.pollOnce = []) ∧
    (wsActive (run (boot dom loc now)
        (pre ++ [Event.socketOpen 0] ++ mid1 ++ [ev] ++ mid2 ++ [Event.retryTick] ++ mid3 ++
          [Event.socketOpen 1] ++ post)) = true ∧
      (run (boot dom loc now)
        (pre ++ [Event.socketOpen 0] ++ mid1 ++ [ev] ++ mid2 ++ [Event.retryTick] ++ mid3 ++
          [Event.socketOpen 1] ++ post)).fetchesIssued =
        (run (boot dom loc now)
          (pre ++ [Event.socketOpen 0] ++ mid1 ++ [ev] ++ mid2 ++ [Event.retryTick] ++ mid3 ++
            [Event.socketOpen 1])).fetchesIssued ∧
      (run (boot dom loc now)
        (pre ++ [Event.socketOpen 0] ++ mid1 ++ [ev] ++ mid2 ++ [Event.retryTick] ++ mid3 ++
          [Event.socketOpen 1] ++ post)).pollTimer = none ∧
      timersOf (run (boot dom loc now)
        (pre ++ [Event.socketOpen 0] ++ mid1 ++ [ev] ++ mid2 ++ [Event.retryTick] ++ mid3 ++
          [Event.socketOpen 1] ++ post)) Callback.pollOnce = [] ∧
      (((∀ e ∈ post, e.isFetchDone = false) ∨
          (run (boot dom loc now)
            (pre ++ [Event.socketOpen 0] ++ mid1 ++ [ev] ++ mid2 ++ [Event.retryTick] ++ mid3 ++
              [Event.socketOpen 1])).fetchesPending = 0) →
        StatusLive (run (boot dom loc now)
          (pre ++ [Event.socketOpen 0] ++ mid1 ++ [ev] ++ mid2 ++ [Event.retryTick] ++ mid3 ++
            [Event.socketOpen 1] ++ post)))) := by
  obtain ⟨d1, d2, d3, d4, i3, p3, i4, p4, h1, e2, l2, e3, e4⟩ :=
    scenario_stages dom loc now pre mid1 mid2 mid3 ev hpre hmid1 hev hmid2 hmid3
  have a1 : run (boot dom loc now) (pre ++ [Event.socketOpen 0]) =
      stageFirst (setConn d1 "Live via WebSocket" "conn-ok") loc ReadyState.OPEN := by
    rw [run_append, h1]; rfl
  have a2 : run (boot dom loc now) (pre ++ [Event.socketOpen 0] ++ mid1 ++ [ev]) =
      stagePolling (setConn d2 "WS unavailable → polling" "conn-fallback") loc none 1 1 := by
    rw [run_append, e2]
    exact stageFirst_close d2 loc ev hev
  have a3 : run (boot dom loc now)
      (pre ++ [Event.socketOpen 0] ++ mid1 ++ [ev] ++ mid2 ++ [Event.retryTick]) =
      stagePolling d3 loc (some ReadyState.CONNECTING) i3 p3 := by
    rw [run_append, e3]; rfl
  have a4 : run (boot dom loc now)
      (pre ++ [Event.socketOpen 0] ++ mid1 ++ [ev] ++ mid2 ++ [Event.retryTick] ++ mid3 ++
        [Event.socketOpen 1]) =
      stageReopened (setConn d4 "Live via WebSocket" "conn-ok") loc i4 p4 := by
    rw [run_append, e4]; rfl
  obtain ⟨d5, p5, h5, -, c5⟩ :=
    stageReopened_run (setConn d4 "Live via WebSocket" "conn-ok") loc i4 p4 post hpost
  have a5 : run (boot dom loc now)
      (pre ++ [Event.socketOpen 0] ++ mid1 ++ [ev] ++ mid2 ++ [Event.retryTick] ++ mid3 ++
        [Event.socketOpen 1] ++ post) = stageReopened d5 loc i4 p5 := by
    rw [run_append, a4, h5]
  rw [a1, e2, a2, e3, a3, a4, a5]
  refine ⟨⟨(setConn_status _).1, l2⟩, ⟨(setConn_status _).2, rfl, rfl, rfl, rfl⟩,
    ⟨rfl, rfl, rfl⟩, ⟨(setConn_status _).1, rfl, rfl⟩, rfl, rfl, rfl, rfl, ?_⟩
  intro hc
  obtain ⟨c1, c2⟩ := c5 hc
  exact ⟨c1.trans (setConn_status _).1.1, c2.trans (setConn_status _).1.2⟩

/-- The scenario with the polling phase of the sample trace, followed by two
ticks of timers and a message: no request is issued after the reconnect, and the
status stays that of the live stream. -/
theorem reconnect_scenario_witness :
    (run (boot samplePage sampleLocation sampleMoment)
      ([] ++ [Event.socketOpen 0] ++ [] ++ [Event.socketClose 0] ++ pollingEvents ++
        [Event.retryTick] ++ [] ++ [Event.socketOpen 1] ++
        [Event.retryTick, Event.pollTick,
          Event.socketMessage 1 (Except.ok sampleReading) sampleMoment])).fetchesIssued =
      (run (boot samplePage sampleLocation sampleMoment)
        ([] ++ [Event.socketOpen 0] ++ [] ++ [Event.socketClose 0] ++ pollingEvents ++
          [Event.retryTick] ++ [] ++ [Event.socketOpen 1])).fetchesIssued ∧
    StatusLive (run (boot samplePage sampleLocation sampleMoment)
      ([] ++ [Event.socketOpen 0] ++ [] ++ [Event.socketClose 0] ++ pollingEvents ++
        [Event.retryTick] ++ [] ++ [Event.socketOpen 1] ++
        [Event.retryTick, Event.pollTick,
          Event.socketMessage 1 (Except.ok sampleReading) sampleMoment])) :=
  ⟨(reconnect_scenario samplePage sampleLocation sampleMoment [] [] pollingEvents []
      [Event.retryTick, Event.pollTick,
        Event.socketMessage 1 (Except.ok sampleReading) sampleMoment] (Event.socketClose 0)
      (by decide) (by decide) rfl (by decide) (by decide) (by decide)).2.2.2.2.2.1,
    (reconnect_scenario samplePage sampleLocation sampleMoment [] [] pollingEvents []
      [Event.retryTick, Event.pollTick,
        Event.socketMessage 1 (Except.ok sampleReading) sampleMoment] (Event.socketClose 0)
      (by decide) (by decide) rfl (by decide) (by decide) (by decide)).2.2.2.2.2.2.2.2
      (Or.inl (by decide))⟩

end WeatherMonitor
